import Mathlib

/-!
Notifications: job enqueuer and receipt counter.

A shallow embedding of two parts of the notifications service.

* `queue.Enqueue` (package `v2/queue`): the transactional job enqueuer.  Its
  implementation file is not among the sources (only `job_enqueuer_test.go`
  is), so the function is modelled from the specification, with the
  collaborators of the test (`mocks.Connection`, `mocks.Transaction`,
  `mocks.MessagesRepository`, `mocks.Queue`, `mocks.GobbleInitializer`)
  represented by a record of scripted answers and a log of the calls made.
* `models.ReceiptsRepo` (`models/receipts_repo.go`): `Create` and
  `CreateReceipts`, translated from the source.  The connection is a record
  of state-passing operations, so that the same code runs against a recording
  connection and against a model of the receipts table.

Times are natural numbers (nanoseconds, UTC); the times of a template, which the
repository compares with the zero value of `time.Time`, are values of `models.Time`, an
instant together with its location.
-/

set_option autoImplicit false

/-! ## Shared helpers -/

/-- One second in nanoseconds (`time.Second`). -/
def Second : Nat := 1000000000

/-- The value of `t.Truncate(d)`: `t` rounded down to a multiple of `d`
(`t` itself when `d` is zero, as in Go). -/
def Truncate (t d : Nat) : Nat := if d = 0 then t else t - t % d

namespace queue

/-! ## Data model of the enqueuer -/

/-- The status written for a freshly enqueued message (`queue.StatusQueued`). -/
def StatusQueued : String := "queued"

/-- A row of the `messages` table (`models.Message`): `id`, `campaign_id`, `status`,
`updated_at`.  The zero value has empty strings and time zero. -/
structure Message where
  ID : String := ""
  CampaignID : String := ""
  Status : String := ""
  UpdatedAt : Nat := 0
deriving DecidableEq, Repr

/-- A recipient (`queue.User`). -/
structure User where
  GUID : String := ""
  Endorsement : String := ""
deriving DecidableEq, Repr

/-- Per-recipient personalization (`queue.Options`); the enqueuer sets the endorsement. -/
structure Options where
  Endorsement : String := ""
deriving DecidableEq, Repr

/-- The value of `cf.CloudControllerSpace` as far as the enqueuer is concerned. -/
structure CloudControllerSpace where
  Name : String := ""
deriving DecidableEq, Repr

/-- The value of `cf.CloudControllerOrganization` as far as the enqueuer is concerned. -/
structure CloudControllerOrganization where
  Name : String := ""
deriving DecidableEq, Repr

/-- The payload of a delivery job (`queue.Delivery`), field for field as the test reads it. -/
structure Delivery where
  JobType : String
  Options : Options
  UserGUID : String
  Space : CloudControllerSpace
  Organization : CloudControllerOrganization
  ClientID : String
  MessageID : String
  UAAHost : String
  Scope : String
  VCAPRequestID : String
  RequestReceived : Nat
  CampaignID : String
deriving DecidableEq, Repr

/-- A value of `ConnectionInterface`: a plain connection or a transaction opened on one. -/
inductive Handle where
  | connection (id : Nat)
  | transaction (id : Nat)
deriving DecidableEq, Repr

/-- One call on a collaborator, with what it received and what it returned. -/
inductive Call where
  | Transaction (conn : Handle) (returned : Handle)
  | GetDbMap (tx : Handle) (returned : Nat)
  | InitializeDBMap (dbMap : Nat)
  | Begin (tx : Handle)
  | Insert (conn : Handle) (message : Message) (returned : Except String Message)
  | Enqueue (conn : Handle) (jobs : List Delivery) (returned : Option String)
  | Commit (tx : Handle) (returned : Option String)
  | Rollback (tx : Handle)

/-- The scripted collaborators of one `Enqueue` call: what `conn.Transaction()` and
`transaction.GetDbMap()` return, what the `k`-th `messagesRepo.Insert` returns for the
message it is given (the stored message with its generated ID, or an error), what the
queue answers to a submission, and what `Commit` answers (`none` is success). -/
structure Collaborators where
  Transaction : Handle → Handle
  GetDbMap : Handle → Nat
  Insert : Nat → Message → Except String Message
  Enqueue : List Delivery → Option String
  Commit : Option String

/-- The result of `Enqueue` for the caller: committed, or a single enqueue failure. -/
inductive Outcome where
  | committed
  | error (cause : String)
deriving DecidableEq, Repr

/-- The fixed context of one `Enqueue` call, shared by every job of the batch. -/
structure Request where
  options : Options
  space : CloudControllerSpace
  organization : CloudControllerOrganization
  clientID : String
  uaaHost : String
  scope : String
  vcapRequestID : String
  reqReceived : Nat
  campaignID : String

/-- The message `Enqueue` hands to the messages repository for every recipient:
status queued, the campaign ID set, no ID (the repository generates it). -/
def newMessage (req : Request) : Message :=
  { Status := StatusQueued, CampaignID := req.campaignID }

/-- The job payload for one recipient and the message stored for them. -/
def newDelivery (req : Request) (user : User) (message : Message) : Delivery :=
  { JobType := "v2"
    Options := { req.options with Endorsement := user.Endorsement }
    UserGUID := user.GUID
    Space := req.space
    Organization := req.organization
    ClientID := req.clientID
    MessageID := message.ID
    UAAHost := req.uaaHost
    Scope := req.scope
    VCAPRequestID := req.vcapRequestID
    RequestReceived := req.reqReceived
    CampaignID := req.campaignID }

/-- Modelled from the spec: the per-recipient loop of `JobEnqueuer.Enqueue`
(`v2/queue/job_enqueuer.go`, absent from the sources).  For every recipient, in order,
one message is inserted through the transaction and one job payload is built from the
stored message; the first failing insert aborts the loop.  `k` numbers the inserts.
Returns the calls made and either the jobs or the error. -/
def insertMessages (env : Collaborators) (tx : Handle) (req : Request) :
    List User → Nat → List Call × Except String (List Delivery)
  | [], _ => ([], .ok [])
  | user :: rest, k =>
    match env.Insert k (newMessage req) with
    | .error e => ([Call.Insert tx (newMessage req) (.error e)], .error e)
    | .ok message =>
      match insertMessages env tx req rest (k + 1) with
      | (calls, .error e) => (Call.Insert tx (newMessage req) (.ok message) :: calls, .error e)
      | (calls, .ok jobs) =>
        (Call.Insert tx (newMessage req) (.ok message) :: calls,
          .ok (newDelivery req user message :: jobs))

/-- Modelled from the spec: `JobEnqueuer.Enqueue` (`v2/queue/job_enqueuer.go`, absent from
the sources; section 4.1 and the queue interface of section 6).  A transaction is obtained
from the connection and supplies the queue backend's handle; inside it every message is
inserted and the jobs are submitted to the queue; any failure rolls back; commit comes
last, and a failed commit is reported without a rollback.  Returns the log of calls and
the outcome. -/
def Enqueue (env : Collaborators) (conn : Handle) (users : List User) (req : Request) :
    List Call × Outcome :=
  let transaction := env.Transaction conn
  let opening : List Call :=
    [Call.Transaction conn transaction,
     Call.GetDbMap transaction (env.GetDbMap transaction),
     Call.InitializeDBMap (env.GetDbMap transaction),
     Call.Begin transaction]
  match insertMessages env transaction req users 0 with
  | (calls, .error e) => (opening ++ calls ++ [Call.Rollback transaction], .error e)
  | (calls, .ok jobs) =>
    match env.Enqueue jobs with
    | some e =>
      (opening ++ calls ++ [Call.Enqueue transaction jobs (some e), Call.Rollback transaction],
        .error e)
    | none =>
      match env.Commit with
      | some e =>
        (opening ++ calls ++ [Call.Enqueue transaction jobs none, Call.Commit transaction (some e)],
          .error e)
      | none =>
        (opening ++ calls ++ [Call.Enqueue transaction jobs none, Call.Commit transaction none],
          .committed)

/-! ### Observations on a log of calls -/

/-- True when `Begin` was called. -/
def beginCalled (log : List Call) : Bool :=
  log.any fun c => match c with | .Begin _ => true | _ => false

/-- True when `Commit` was called. -/
def commitCalled (log : List Call) : Bool :=
  log.any fun c => match c with | .Commit _ _ => true | _ => false

/-- True when `Rollback` was called. -/
def rollbackCalled (log : List Call) : Bool :=
  log.any fun c => match c with | .Rollback _ => true | _ => false

/-- True when some message insert returned an error. -/
def insertFailed (log : List Call) : Bool :=
  log.any fun c => match c with | .Insert _ _ (.error _) => true | _ => false

/-- True when a queue submission returned an error. -/
def enqueueFailed (log : List Call) : Bool :=
  log.any fun c => match c with | .Enqueue _ _ (some _) => true | _ => false

/-- True when a queue submission was made and succeeded. -/
def enqueueSucceeded (log : List Call) : Bool :=
  log.any fun c => match c with | .Enqueue _ _ none => true | _ => false

/-- True when `Commit` was called and returned an error. -/
def commitFailed (log : List Call) : Bool :=
  log.any fun c => match c with | .Commit _ (some _) => true | _ => false

/-- The messages handed to the messages repository, in call order. -/
def insertedMessages (log : List Call) : List Message :=
  log.filterMap fun c => match c with | .Insert _ m _ => some m | _ => none

/-- The connection handles handed to the messages repository, in call order. -/
def insertConnections (log : List Call) : List Handle :=
  log.filterMap fun c => match c with | .Insert h _ _ => some h | _ => none

/-- The connection handles handed to the queue, in call order. -/
def enqueueConnections (log : List Call) : List Handle :=
  log.filterMap fun c => match c with | .Enqueue h _ _ => some h | _ => none

/-- The transactions obtained from a connection, as pairs (connection, transaction). -/
def transactionsObtained (log : List Call) : List (Handle × Handle) :=
  log.filterMap fun c => match c with | .Transaction conn t => some (conn, t) | _ => none

/-- The handles on which `Begin`, `Commit` or `Rollback` was called, in call order. -/
def resolvedTransactions (log : List Call) : List Handle :=
  log.filterMap fun c => match c with
    | .Begin t => some t
    | .Commit t _ => some t
    | .Rollback t => some t
    | _ => none

/-- The DbMaps handed to the queue initializer, in call order. -/
def initializedDbMaps (log : List Call) : List Nat :=
  log.filterMap fun c => match c with | .InitializeDBMap d => some d | _ => none

/-- The job lists submitted to the queue, one per submission, in call order. -/
def submissions (log : List Call) : List (List Delivery) :=
  log.filterMap fun c => match c with | .Enqueue _ jobs _ => some jobs | _ => none

/-- The jobs submitted to the queue, over all submissions, in order. -/
def submittedJobs (log : List Call) : List Delivery :=
  (submissions log).flatten

/-- The IDs of the messages the repository stored, in call order. -/
def storedMessageIDs (log : List Call) : List String :=
  log.filterMap fun c => match c with | .Insert _ _ (.ok m) => some m.ID | _ => none

/-- What `transaction.CommitCall.WasCalled` reads at the moment of each queue submission,
in call order, when it reads `committed` at the start of the log (the hook of the test
"does not commit the transaction until the jobs have been queued"). -/
def commitSeenAtEnqueue : Bool → List Call → List Bool
  | _, [] => []
  | _, .Commit _ _ :: rest => commitSeenAtEnqueue true rest
  | committed, .Enqueue _ _ _ :: rest => committed :: commitSeenAtEnqueue committed rest
  | committed, _ :: rest => commitSeenAtEnqueue committed rest

/-- The job payload the test expects for a recipient and a message ID, written out field
by field. -/
def expectedDelivery (req : Request) (user : User) (messageID : String) : Delivery :=
  ⟨"v2", ⟨user.Endorsement⟩, user.GUID, req.space, req.organization, req.clientID, messageID,
    req.uaaHost, req.scope, req.vcapRequestID, req.reqReceived, req.campaignID⟩

/-- Collaborators of the test suite: transaction 1 on every connection, DbMap 7, the
`k`-th insert stores the message under the ID `ids k` unless `k` is in `failing`, and the
queue and the commit answer as given. -/
def scripted (ids : Nat → String) (failing : List Nat) (queueError commitError : Option String) :
    Collaborators :=
  { Transaction := fun _ => Handle.transaction 1
    GetDbMap := fun _ => 7
    Insert := fun k m => if k ∈ failing then .error "BOOM!" else .ok { m with ID := ids k }
    Enqueue := fun _ => queueError
    Commit := commitError }

/-- The generated IDs of the test suite. -/
def testIDs : Nat → String
  | 0 => "first-random-guid"
  | 1 => "second-random-guid"
  | 2 => "third-random-guid"
  | _ => "fourth-random-guid"

/-- The request of the test suite. -/
def testRequest : Request :=
  { options := {}
    space := { Name := "the-space" }
    organization := { Name := "the-org" }
    clientID := "the-client"
    uaaHost := "my-uaa-host"
    scope := "my.scope"
    vcapRequestID := "some-request-id"
    reqReceived := 1433799612207187819
    campaignID := "some-campaign" }

end queue

namespace models

/-! ## Data model of the receipt counter -/

/-- A row of the `receipts` table (`models.Receipt`), with the fields the repository
uses.  The zero value (`Receipt{}`) has empty strings, count zero and time zero. -/
structure Receipt where
  UserGUID : String := ""
  ClientID : String := ""
  KindID : String := ""
  Count : Int := 0
  CreatedAt : Nat := 0
deriving DecidableEq, Repr

/-- An error coming out of the connection: `sql.ErrNoRows`, or an error of the database
driver with its message. -/
inductive DbError where
  | ErrNoRows
  | driver (message : String)
deriving DecidableEq, Repr

/-- The text of `err.Error()`. -/
def DbError.Error : DbError → String
  | .ErrNoRows => "sql: no rows in result set"
  | .driver message => message

/-- An error returned by a repository: one of its own conditions, or the error of the
connection handed on unchanged. -/
inductive RepoError where
  | ErrDuplicateRecord
  | ErrRecordNotFound
  | db (err : DbError)
deriving DecidableEq, Repr

/-- An argument of a prepared statement (`interface{}`): a string, an integer or a time. -/
inductive SQLArg where
  | str (s : String)
  | int (n : Int)
  | time (t : Nat)
deriving DecidableEq, Repr

/-- The operations of `ConnectionInterface` used by the receipts repository, over a store
of type `σ`.  Each takes the store and returns its answer with the store after the call;
`none` is a nil error. -/
structure ConnectionInterface (σ : Type) where
  Insert : Receipt → σ → Option DbError × σ
  SelectOne : String → List SQLArg → σ → Except DbError Receipt × σ
  Update : Receipt → σ → Except DbError Int × σ
  Exec : String → List SQLArg → σ → Option DbError × σ

/-- One call on the connection, with its arguments. -/
inductive ConnCall where
  | Insert (receipt : Receipt)
  | SelectOne (query : String) (args : List SQLArg)
  | Update (receipt : Receipt)
  | Exec (query : String) (args : List SQLArg)
deriving DecidableEq, Repr

/-- The connection `conn` with a log: every call is appended to the log, then answered by
`conn`. -/
def recording {σ : Type} (conn : ConnectionInterface σ) : ConnectionInterface (σ × List ConnCall) :=
  { Insert := fun r s => ((conn.Insert r s.1).1, ((conn.Insert r s.1).2, s.2 ++ [ConnCall.Insert r]))
    SelectOne := fun q a s =>
      ((conn.SelectOne q a s.1).1, ((conn.SelectOne q a s.1).2, s.2 ++ [ConnCall.SelectOne q a]))
    Update := fun r s => ((conn.Update r s.1).1, ((conn.Update r s.1).2, s.2 ++ [ConnCall.Update r]))
    Exec := fun q a s => ((conn.Exec q a s.1).1, ((conn.Exec q a s.1).2, s.2 ++ [ConnCall.Exec q a])) }

/-- Whether `sub` occurs in `s` as a contiguous run of characters. -/
def containsChars (sub : List Char) : List Char → Bool
  | [] => sub.isEmpty
  | c :: cs => sub.isPrefixOf (c :: cs) || containsChars sub cs

/-- The result of `strings.Contains(s, substr)`. -/
def stringsContains (s substr : String) : Bool := containsChars substr.data s.data

/-- The value of `time.Now().Truncate(1 * time.Second).UTC()` when the clock reads `now`. -/
def truncatedNow (now : Nat) : Nat := Truncate now (1 * Second)

/-! ## `ReceiptsRepo.Create` -/

/-- The method `ReceiptsRepo.Create`: stamps the receipt, inserts it, and turns a
duplicate-key error of the insert into `ErrDuplicateRecord`.  `now` is the clock. -/
def Create {σ : Type} (conn : ConnectionInterface σ) (now : Nat) (receipt : Receipt) (s : σ) :
    (Receipt × Option RepoError) × σ :=
  let receipt := { receipt with CreatedAt := truncatedNow now }
  let receipt := { receipt with Count := 1 }
  match conn.Insert receipt s with
  | (some err, s) =>
    if stringsContains err.Error "Duplicate entry" then
      (({}, some RepoError.ErrDuplicateRecord), s)
    else
      (({}, some (RepoError.db err)), s)
  | (none, s) => ((receipt, none), s)

/-! ## `ReceiptsRepo.CreateReceipts` -/

/-- The format string of the batched upsert. -/
def createReceiptsQuery : String :=
  "INSERT INTO `receipts` (`user_guid`, `client_id`, `kind_id`, `count`, `created_at`) VALUES %s ON DUPLICATE KEY UPDATE `count`=`count`+1"

/-- The characters of `fmt.Sprintf(format, arg)` for one string argument: the first `%s`
of the format is replaced by the argument, everything else is copied. -/
def sprintfChars : List Char → List Char → List Char
  | [], _ => []
  | '%' :: 's' :: rest, arg => arg ++ rest
  | c :: rest, arg => c :: sprintfChars rest arg

/-- The result of `fmt.Sprintf(format, arg)` for a format with one `%s` verb. -/
def Sprintf (format arg : String) : String := ⟨sprintfChars format.data arg.data⟩

/-- The method `ReceiptsRepo.buildExecArguments`; `now` is the clock at the call. -/
def buildExecArguments (now : Nat) (receipt : Receipt) : List SQLArg :=
  [SQLArg.str receipt.UserGUID, SQLArg.str receipt.ClientID, SQLArg.str receipt.KindID,
   SQLArg.int 1, SQLArg.time (truncatedNow now)]

/-- The loop of `CreateReceipts` over the GUIDs still to visit, `index` being the index of
the first of them and `len` the length of the whole list; `clock index` is what the clock
reads in iteration `index`.  Returns `values` and `execArguments` after the loop. -/
def createReceiptsLoop (clock : Nat → Nat) (clientID kindID : String) (len : Int) :
    List String → Nat → String → List SQLArg → String × List SQLArg
  | [], _, values, execArguments => (values, execArguments)
  | guid :: rest, index, values, execArguments =>
    let receipt : Receipt := { UserGUID := guid, ClientID := clientID, KindID := kindID }
    let execArguments := execArguments ++ buildExecArguments (clock index) receipt
    let values := values ++ "(?, ?, ?, ?, ?)"
    let values := if (index : Int) ≠ len - 1 then values ++ "," else values
    createReceiptsLoop clock clientID kindID len rest (index + 1) values execArguments

/-- The method `ReceiptsRepo.CreateReceipts`: builds one statement for the whole batch and
executes it. -/
def CreateReceipts {σ : Type} (conn : ConnectionInterface σ) (clock : Nat → Nat)
    (userGUIDs : List String) (clientID kindID : String) (s : σ) : Option DbError × σ :=
  let built := createReceiptsLoop clock clientID kindID userGUIDs.length userGUIDs 0 "" []
  let query := Sprintf createReceiptsQuery built.1
  match conn.Exec query built.2 s with
  | (some err, s) => (some err, s)
  | (none, s) => (none, s)

/-! ### The statement as the specification words it -/

/-- One placeholder group of the statement. -/
def placeholderGroup : String := "(?, ?, ?, ?, ?)"

/-- The VALUES clause with `n` placeholder groups: the groups separated by single commas,
with no trailing comma. -/
def placeholderGroups : Nat → String
  | 0 => ""
  | 1 => placeholderGroup
  | n + 2 => placeholderGroup ++ "," ++ placeholderGroups (n + 1)

/-- The batched upsert with `n` placeholder groups. -/
def upsertStatement (n : Nat) : String :=
  "INSERT INTO `receipts` (`user_guid`, `client_id`, `kind_id`, `count`, `created_at`) VALUES "
    ++ placeholderGroups n ++ " ON DUPLICATE KEY UPDATE `count`=`count`+1"

/-- The five arguments of the row of one GUID: the GUID, the client, the kind, the integer
one and the creation timestamp. -/
def rowArguments (guid clientID kindID : String) (createdAt : Nat) : List SQLArg :=
  [SQLArg.str guid, SQLArg.str clientID, SQLArg.str kindID, SQLArg.int 1, SQLArg.time createdAt]

/-- The arguments of the rows of the GUIDs `guids`, the first of them having index `index`
in the batch; row `i` is stamped with the clock of iteration `i`, truncated to the second. -/
def batchArguments (clock : Nat → Nat) (clientID kindID : String) : List String → Nat → List SQLArg
  | [], _ => []
  | guid :: rest, index =>
    rowArguments guid clientID kindID (truncatedNow (clock index))
      ++ batchArguments clock clientID kindID rest (index + 1)

/-! ### The receipts table -/

/-- The unique key of a receipt: `(user_guid, client_id, kind_id)`. -/
def Receipt.key (r : Receipt) : String × String × String := (r.UserGUID, r.ClientID, r.KindID)

/-- The rows of a table stored under a key. -/
def rowsFor (key : String × String × String) (table : List Receipt) : List Receipt :=
  table.filter fun r => r.key = key

/-- Modelled from the spec: one row of `INSERT ... ON DUPLICATE KEY UPDATE count = count + 1`
on the `receipts` table with unique key `(user_guid, client_id, kind_id)` (section 6; the
database engine is not part of the repository).  A row whose key is already stored
increments the stored count; otherwise the row is added. -/
def upsertRow : List Receipt → Receipt → List Receipt
  | [], r => [r]
  | x :: rest, r =>
    if x.key = r.key then { x with Count := x.Count + 1 } :: rest else x :: upsertRow rest r

/-- The rows an argument list stands for, five arguments to a row; `none` when the
arguments do not have that shape. -/
def decodeRows : List SQLArg → Option (List Receipt)
  | [] => some []
  | .str g :: .str c :: .str k :: .int n :: .time t :: rest =>
    (decodeRows rest).map fun rows => ⟨g, c, k, n, t⟩ :: rows
  | _ => none

/-- Modelled from the spec: a connection to a database holding the `receipts` table
(section 6; the database engine is not part of the repository).  `Exec` accepts the batched
upsert with at least one row and as many placeholder groups as rows, and applies the rows
in order; `Insert` refuses a stored key with a duplicate-key error; `SelectOne` reads the
row of the key given by three string arguments; `Update` rewrites the row of the key. -/
def receiptsTable : ConnectionInterface (List Receipt) :=
  { Insert := fun r table =>
      if rowsFor r.key table = [] then (none, table ++ [r])
      else (some (DbError.driver "Error 1062: Duplicate entry for key 'user_guid'"), table)
    SelectOne := fun _ args table =>
      match args with
      | [.str u, .str c, .str k] =>
        match rowsFor (u, c, k) table with
        | [] => (.error DbError.ErrNoRows, table)
        | r :: _ => (.ok r, table)
      | _ => (.error (DbError.driver "sql: wrong number of arguments"), table)
    Update := fun r table =>
      if rowsFor r.key table = [] then (.ok 0, table)
      else (.ok 1, table.map fun x => if x.key = r.key then r else x)
    Exec := fun query args table =>
      match decodeRows args with
      | some [] => (some (DbError.driver "Error 1064: You have an error in your SQL syntax"), table)
      | some rows =>
        if query = upsertStatement rows.length then (none, rows.foldl upsertRow table)
        else (some (DbError.driver "Error 1064: You have an error in your SQL syntax"), table)
      | none => (some (DbError.driver "sql: wrong number of arguments"), table) }

/-- The rows of one batch: one row per GUID with count 1, row `i` stamped with the clock of
iteration `i` truncated to the second (the rows `batchArguments` stands for). -/
def batchRows (clock : Nat → Nat) (clientID kindID : String) : List String → Nat → List Receipt
  | [], _ => []
  | guid :: rest, index =>
    ⟨guid, clientID, kindID, 1, truncatedNow (clock index)⟩
      :: batchRows clock clientID kindID rest (index + 1)

end models

namespace models

/-! ## `ReceiptsRepo.Find` and `ReceiptsRepo.Update` -/

/-- The method `ReceiptsRepo.Find`: selects the row of the key, and turns `sql.ErrNoRows`
into `ErrRecordNotFound`; on any error the zero receipt is returned. -/
def Find {σ : Type} (conn : ConnectionInterface σ) (userGUID clientID kindID : String) (s : σ) :
    (Receipt × Option RepoError) × σ :=
  match conn.SelectOne
      "SELECT * FROM  `receipts` WHERE `user_guid` = ? AND `client_id` = ? AND `kind_id` = ?"
      [SQLArg.str userGUID, SQLArg.str clientID, SQLArg.str kindID] s with
  | (.error err, s) =>
    if err = DbError.ErrNoRows then (({}, some RepoError.ErrRecordNotFound), s)
    else (({}, some (RepoError.db err)), s)
  | (.ok receipt, s) => ((receipt, none), s)

/-- The method `ReceiptsRepo.Update`: writes the receipt through the connection, and on
success reads the row of its key back with `Find`. -/
def Update {σ : Type} (conn : ConnectionInterface σ) (receipt : Receipt) (s : σ) :
    (Receipt × Option RepoError) × σ :=
  match conn.Update receipt s with
  | (.error err, s) => ((receipt, some (RepoError.db err)), s)
  | (.ok _, s) => Find conn receipt.UserGUID receipt.ClientID receipt.KindID s

/-! ### Sequences of calls on the receipts table -/

/-- One call of the receipts repository that writes: `Create`, `CreateReceipts` or `Update`,
with its arguments and the clock it runs under. -/
inductive RepoCall where
  | Create (now : Nat) (receipt : Receipt)
  | CreateReceipts (clock : Nat → Nat) (userGUIDs : List String) (clientID kindID : String)
  | Update (receipt : Receipt)

/-- The receipts table after one call of the repository. -/
def RepoCall.run (table : List Receipt) : RepoCall → List Receipt
  | .Create now receipt => (models.Create receiptsTable now receipt table).2
  | .CreateReceipts clock userGUIDs clientID kindID =>
    (models.CreateReceipts receiptsTable clock userGUIDs clientID kindID table).2
  | .Update receipt => (models.Update receiptsTable receipt table).2

/-- The receipts table after a sequence of calls, in order. -/
def runCalls (calls : List RepoCall) (table : List Receipt) : List Receipt :=
  calls.foldl RepoCall.run table

/-- True when every `Update` of the sequence is given a receipt with count at least 1. -/
def updatesCountPositive (calls : List RepoCall) : Bool :=
  calls.all fun c => match c with | .Update receipt => decide (1 ≤ receipt.Count) | _ => true

end models

namespace messages

open queue (Message)

/-! ## The messages repository (package `v1/models`) -/

/-- The status of a delivered message (`postal.StatusDelivered`). -/
def StatusDelivered : String := "delivered"

/-- The status of a failed message (`postal.StatusFailed`). -/
def StatusFailed : String := "failed"

/-- An error of the messages repository: a lookup miss with its message, or a violated
unique constraint. -/
inductive RepoError where
  | NotFoundError (message : String)
  | DuplicateRecordError
deriving DecidableEq, Repr

/-- The text of the lookup miss for a message ID, `fmt.Errorf("Message with ID %q could not
be found", id)` as the test writes it; `quote` is the rendering of `%q` (Go's
`strconv.Quote`, not part of the repository). -/
def notFoundMessage (quote : String → String) (id : String) : String :=
  "Message with ID " ++ quote id ++ " could not be found"

/-- The digit of `n` modulo 16 in Go's `lowerhex`. -/
def hexDigit (n : Nat) : Char := ("0123456789abcdef".data).getD (n % 16) '0'

/-- The `width` hexadecimal digits of `n`, most significant first. -/
def hexDigits : Nat → Nat → List Char
  | 0, _ => []
  | width + 1, n => hexDigits width (n / 16) ++ [hexDigit n]

/-- The function `strconv.IsPrint`: decided by the code up to U+00FF (the printable ASCII
characters, and U+00A1 to U+00FF without the soft hyphen U+00AD); above that Go consults its
table of printable runes, which is the parameter `printable`. -/
def IsPrint (printable : Char → Bool) (r : Char) : Bool :=
  if r.toNat ≤ 255 then
    if 32 ≤ r.toNat ∧ r.toNat ≤ 126 then true
    else if 161 ≤ r.toNat ∧ r.toNat ≤ 255 then decide (r.toNat ≠ 173)
    else false
  else printable r

/-- Go's `appendEscapedRune` for the double quote: the quote and the backslash get a
backslash, a printable rune stands for itself, the control characters with a letter escape
get it, the other ones below the blank and DEL are written `\x` with two digits, the rest
`\u` with four digits or `\U` with eight. -/
def escapedRune (printable : Char → Bool) (r : Char) : List Char :=
  if r.toNat = 34 ∨ r.toNat = 92 then [Char.ofNat 92, r]
  else if IsPrint printable r then [r]
  else if r.toNat = 7 then [Char.ofNat 92, 'a']
  else if r.toNat = 8 then [Char.ofNat 92, 'b']
  else if r.toNat = 12 then [Char.ofNat 92, 'f']
  else if r.toNat = 10 then [Char.ofNat 92, 'n']
  else if r.toNat = 13 then [Char.ofNat 92, 'r']
  else if r.toNat = 9 then [Char.ofNat 92, 't']
  else if r.toNat = 11 then [Char.ofNat 92, 'v']
  else if r.toNat < 32 ∨ r.toNat = 127 then Char.ofNat 92 :: 'x' :: hexDigits 2 r.toNat
  else if r.toNat < 65536 then Char.ofNat 92 :: 'u' :: hexDigits 4 r.toNat
  else Char.ofNat 92 :: 'U' :: hexDigits 8 r.toNat

/-- The function `strconv.Quote`, the rendering of `%q`: the string between double quotes,
every rune escaped as Go does.  A string here is a sequence of Unicode characters, so the
escape of an invalid byte does not arise. -/
def Quote (printable : Char → Bool) (s : String) : String :=
  ⟨[Char.ofNat 34] ++ s.data.flatMap (escapedRune printable) ++ [Char.ofNat 34]⟩

/-- True when `%q` escapes nothing in the ID: every character is printable ASCII and none
is the double quote or the backslash. -/
def plainID (id : String) : Bool :=
  id.data.all fun c => decide (32 ≤ c.toNat ∧ c.toNat ≤ 126 ∧ c.toNat ≠ 34 ∧ c.toNat ≠ 92)

/-- A table of printable runes for the examples, whose strings are ASCII: no rune above
U+00FF is taken as printable. -/
def noneAboveLatin1 : Char → Bool := fun _ => false

/-- The row stored under a message ID, if any (`id` is the primary key). -/
def stored (id : String) (table : List Message) : Option Message :=
  table.find? fun m => m.ID = id

/-- Modelled from the spec: `MessagesRepo.FindByID` (`v1/models/messages_repo.go`, absent
from the sources; section 7 and the test "FindByID").  Returns the row stored under the ID,
or a not-found error naming the ID. -/
def FindByID (quote : String → String) (id : String) (table : List Message) :
    Except RepoError Message :=
  match stored id table with
  | some m => .ok m
  | none => .error (RepoError.NotFoundError (notFoundMessage quote id))

/-- Modelled from the spec: `MessagesRepo.Create` (`v1/models/messages_repo.go`, absent from
the sources; section 3 and 6, `messages(id PK, campaign_id, status, updated_at)`).  Stores
the message under its ID with `updatedAt` the time of the write and returns the stored row;
a stored ID is refused.  `now` is the clock. -/
def Create (now : Nat) (message : Message) (table : List Message) :
    Except RepoError Message × List Message :=
  match stored message.ID table with
  | some _ => (.error RepoError.DuplicateRecordError, table)
  | none => (.ok { message with UpdatedAt := now }, table ++ [{ message with UpdatedAt := now }])

/-- Modelled from the spec: `MessagesRepo.Upsert` (`v1/models/messages_repo.go`, absent from
the sources; the test "Upsert": "inserts a new record" when no record exists with the
message ID, "updates the existing record" otherwise, and section 4.2, status writes keyed by
message ID with `updatedAt = now`).  Returns the stored row.  `now` is the clock. -/
def Upsert (now : Nat) (message : Message) (table : List Message) :
    Except RepoError Message × List Message :=
  match stored message.ID table with
  | none => Create now message table
  | some _ =>
    (.ok { message with UpdatedAt := now },
      table.map fun m => if m.ID = message.ID then { message with UpdatedAt := now } else m)

/-- Modelled from the spec: `MessagesRepo.DeleteBefore` (`v1/models/messages_repo.go`, absent
from the sources; section 3, the retention sweep).  Purges the rows whose `updatedAt` is
earlier than the cutoff and returns the number of rows removed. -/
def DeleteBefore (cutoff : Nat) (table : List Message) : Nat × List Message :=
  ((table.filter fun m => decide (m.UpdatedAt < cutoff)).length,
    table.filter fun m => !decide (m.UpdatedAt < cutoff))

/-- The invariant of the primary key: no two rows share an ID. -/
def uniqueIDs (table : List Message) : Prop := (table.map fun m => m.ID).Nodup

instance (table : List Message) : Decidable (uniqueIDs table) := by
  unfold uniqueIDs
  infer_instance

end messages

namespace collections

open queue (Message)

/-! ## The campaign status aggregator (package `v2/collections`) -/

/-- The aggregate view of a campaign (`collections.CampaignStatus`), with the fields of the
test and the queued count of section 8; `CompletedTime` is a `mysql.NullTime`. -/
structure CampaignStatus where
  CampaignID : String
  Status : String
  TotalMessages : Nat
  SentMessages : Nat
  RetryMessages : Nat
  FailedMessages : Nat
  QueuedMessages : Nat
  StartTime : Nat
  CompletedTime : Option Nat
deriving DecidableEq, Repr

/-- The error of `Get`: no message row references the campaign. -/
inductive GetError where
  | NotFound
deriving DecidableEq, Repr

/-- The message states of section 4.2. -/
def messageStates : List String := ["queued", "delivering", "delivered", "retrying", "failed"]

/-- The number of rows whose status is one of `statuses`. -/
def countStatus (statuses : List String) (rows : List Message) : Nat :=
  rows.countP fun m => decide (m.Status ∈ statuses)

/-- The latest `updatedAt` among the rows: the instant the last message changed state. -/
def latestUpdate (rows : List Message) : Nat :=
  rows.foldl (fun t m => max t m.UpdatedAt) 0

/-- Modelled from the spec: the overall status of a campaign from its tallies (section 4.3,
the three rules in the order of the text). -/
def overallStatus (sent failed retry queued : Nat) : String :=
  if 0 < failed ∧ queued = 0 ∧ retry = 0 ∧ sent = 0 then "failed"
  else if 0 < queued ∨ 0 < retry then "sending"
  else "completed"

/-- Modelled from the spec: `CampaignStatusesCollection.Get` (`v2/collections`, absent from
the sources; sections 3 and 4.3).  Scans the message rows of the campaign and tallies them
by status: delivered rows are sent, failed rows failed, retrying rows in retry, and the rows
that have not left the transient states without being in retry (queued, or being
delivered) queued.  The completed time is set, to the instant of the last change, once no
row is queued or in retry.  No row for the campaign is a not-found error.  `startTime` is
the start of the campaign. -/
def Get (startTime : Nat) (campaignID : String) (table : List Message) :
    Except GetError CampaignStatus :=
  match table.filter fun m => m.CampaignID = campaignID with
  | [] => .error GetError.NotFound
  | row :: rest =>
    let rows := row :: rest
    let sent := countStatus ["delivered"] rows
    let failed := countStatus ["failed"] rows
    let retry := countStatus ["retrying"] rows
    let queued := countStatus ["queued", "delivering"] rows
    .ok { CampaignID := campaignID
          Status := overallStatus sent failed retry queued
          TotalMessages := rows.length
          SentMessages := sent
          RetryMessages := retry
          FailedMessages := failed
          QueuedMessages := queued
          StartTime := startTime
          CompletedTime := if retry = 0 ∧ queued = 0 then some (latestUpdate rows) else none }

end collections

namespace collections

/-- The message rows of the test "gets the status of an existing campaign": six delivered
and two failed messages of the campaign, and a queued message of another campaign. -/
def testRows : List queue.Message :=
  [⟨"m1", "some-campaign-id", "delivered", 11⟩, ⟨"m2", "some-campaign-id", "delivered", 12⟩,
   ⟨"m3", "some-campaign-id", "failed", 12⟩, ⟨"m4", "some-campaign-id", "delivered", 11⟩,
   ⟨"m5", "other-campaign-id", "queued", 13⟩, ⟨"m6", "some-campaign-id", "delivered", 11⟩,
   ⟨"m7", "some-campaign-id", "failed", 11⟩, ⟨"m8", "some-campaign-id", "delivered", 11⟩,
   ⟨"m9", "some-campaign-id", "delivered", 11⟩]

/-- The campaign status of the test "gets the status of an existing campaign". -/
def testStatus : CampaignStatus :=
  { CampaignID := "some-campaign-id"
    Status := "completed"
    TotalMessages := 8
    SentMessages := 6
    RetryMessages := 0
    FailedMessages := 2
    QueuedMessages := 0
    StartTime := 10
    CompletedTime := some 12 }

/-- A campaign with one delivered and one queued message. -/
def sendingRows : List queue.Message :=
  [⟨"m1", "some-campaign-id", "delivered", 11⟩, ⟨"m2", "some-campaign-id", "queued", 10⟩]

/-- The status of the campaign of `sendingRows`. -/
def sendingStatus : CampaignStatus :=
  { CampaignID := "some-campaign-id"
    Status := "sending"
    TotalMessages := 2
    SentMessages := 1
    RetryMessages := 0
    FailedMessages := 0
    QueuedMessages := 1
    StartTime := 10
    CompletedTime := none }

end collections

namespace models

/-! ## The templates repository (`models/templates_repo.go`) -/

/-- A value of `time.Time`: the instant, in nanoseconds since the zero instant of Go
(January 1 of the year 1, 00:00:00 UTC; negative before it), and the location pointer,
`none` for nil, which stands for UTC.  The zero value `time.Time{}` is the zero instant with
the nil location, and `==` on two times compares both fields.  The reading of the monotonic
clock that a time may carry is left out: a time with such a reading is later than 1885, so
it differs from `time.Time{}` by its instant already. -/
structure Time where
  ns : Int := 0
  loc : Option String := none
deriving DecidableEq, Repr

/-- The value of `time.Now()` when the clock reads `now` nanoseconds after the zero
instant: that instant in the local location. -/
def Now (now : Nat) : Time := ⟨now, some "Local"⟩

/-- The method `Time.Truncate`: the instant rounded down to a multiple of `d` since the zero
instant, in the same location; the time itself when `d` is zero. -/
def Time.Truncate (t : Time) (d : Nat) : Time :=
  if d = 0 then t else { t with ns := t.ns - t.ns % (d : Int) }

/-- The method `Time.UTC`: the same instant with the location set to UTC, which Go stores as
the nil pointer. -/
def Time.UTC (t : Time) : Time := { t with loc := none }

/-- A row of the `templates` table (`models.Template`): the fields the repository names
(`Primary`, `Name`, `CreatedAt`, `UpdatedAt`) and the content of the template.  The zero
value (`Template{}`) has zero, empty strings, false and the zero value of `time.Time`. -/
structure Template where
  Primary : Int := 0
  Name : String := ""
  Subject : String := ""
  Text : String := ""
  HTML : String := ""
  Overridden : Bool := false
  CreatedAt : Time := {}
  UpdatedAt : Time := {}
deriving DecidableEq, Repr

/-- The operations of `ConnectionInterface` used by the templates repository, over a store
of type `σ`.  `SelectOne` answers with the content of the holder after the call and the
error (`none` is nil); `Insert` answers with the primary key bound to the inserted struct,
`Update` and `Delete` with the number of rows. -/
structure TemplatesConnection (σ : Type) where
  SelectOne : String → List SQLArg → σ → (Template × Option DbError) × σ
  Insert : Template → σ → Except DbError Int × σ
  Update : Template → σ → Except DbError Int × σ
  Delete : Template → σ → Except DbError Int × σ

/-- One call on the connection of the templates repository, with its arguments. -/
inductive TemplateCall where
  | SelectOne (query : String) (args : List SQLArg)
  | Insert (template : Template)
  | Update (template : Template)
  | Delete (template : Template)
deriving DecidableEq, Repr

/-- The connection `conn` with a log: every call is appended to the log, then answered by
`conn`. -/
def recordingTemplates {σ : Type} (conn : TemplatesConnection σ) :
    TemplatesConnection (σ × List TemplateCall) :=
  { SelectOne := fun q a s =>
      ((conn.SelectOne q a s.1).1, ((conn.SelectOne q a s.1).2, s.2 ++ [TemplateCall.SelectOne q a]))
    Insert := fun t s => ((conn.Insert t s.1).1, ((conn.Insert t s.1).2, s.2 ++ [TemplateCall.Insert t]))
    Update := fun t s => ((conn.Update t s.1).1, ((conn.Update t s.1).2, s.2 ++ [TemplateCall.Update t]))
    Delete := fun t s => ((conn.Delete t s.1).1, ((conn.Delete t s.1).2, s.2 ++ [TemplateCall.Delete t])) }

/-- A connection double without a store: every call gets the scripted answer. -/
def scriptedTemplates (selected : Template × Option DbError)
    (inserted updated deleted : Except DbError Int) : TemplatesConnection Unit :=
  { SelectOne := fun _ _ s => (selected, s)
    Insert := fun _ s => (inserted, s)
    Update := fun _ s => (updated, s)
    Delete := fun _ s => (deleted, s) }

/-- True when the log holds an `Insert`. -/
def insertIssued (log : List TemplateCall) : Bool :=
  log.any fun c => match c with | .Insert _ => true | _ => false

/-- True when the log holds an `Update`. -/
def updateIssued (log : List TemplateCall) : Bool :=
  log.any fun c => match c with | .Update _ => true | _ => false

/-- True when the log holds a `Delete`. -/
def deleteIssued (log : List TemplateCall) : Bool :=
  log.any fun c => match c with | .Delete _ => true | _ => false

/-- The method `TemplatesRepo.Find`: selects the template of the name; `sql.ErrNoRows`
becomes `ErrRecordNotFound`; the holder is returned also on an error. -/
def TemplatesRepo.Find {σ : Type} (conn : TemplatesConnection σ) (templateName : String) (s : σ) :
    (Template × Option RepoError) × σ :=
  match conn.SelectOne "SELECT * FROM `templates` WHERE `name`=?" [SQLArg.str templateName] s with
  | ((template, some err), s) =>
    if err = DbError.ErrNoRows then ((template, some RepoError.ErrRecordNotFound), s)
    else ((template, some (RepoError.db err)), s)
  | ((template, none), s) => ((template, none), s)

/-- The method `TemplatesRepo.Create`: a `CreatedAt` equal to `time.Time{}` is set to
`time.Now().Truncate(1 * time.Second).UTC()`, `UpdatedAt` is set to `CreatedAt`, and the
template is inserted; the struct returned is the one handed to `Insert`, with the primary
key the insert bound to it.  `now` is the reading of the clock. -/
def TemplatesRepo.Create {σ : Type} (conn : TemplatesConnection σ) (now : Nat)
    (template : Template) (s : σ) : (Template × Option RepoError) × σ :=
  let template :=
    if template.CreatedAt = ({} : Time) then
      { template with CreatedAt := ((Now now).Truncate (1 * Second)).UTC }
    else template
  let template := { template with UpdatedAt := template.CreatedAt }
  match conn.Insert template s with
  | (.error err, s) => (({}, some (RepoError.db err)), s)
  | (.ok key, s) => (({ template with Primary := key }, none), s)

/-- The method `TemplatesRepo.Upsert`: creates the template when `Find` reports
`ErrRecordNotFound`, gives up on any other error of `Find`, and otherwise updates the
existing row, keeping its `Primary` and `CreatedAt`, with `UpdatedAt` set to
`time.Now().Truncate(1 * time.Second).UTC()`.  `now` is the reading of the clock. -/
def TemplatesRepo.Upsert {σ : Type} (conn : TemplatesConnection σ) (now : Nat)
    (template : Template) (s : σ) : (Template × Option RepoError) × σ :=
  match TemplatesRepo.Find conn template.Name s with
  | ((_, some err), s) =>
    if err = RepoError.ErrRecordNotFound then TemplatesRepo.Create conn now template s
    else (({}, some err), s)
  | ((existingTemplate, none), s) =>
    let template := { template with Primary := existingTemplate.Primary }
    let template := { template with CreatedAt := existingTemplate.CreatedAt }
    let template := { template with UpdatedAt := ((Now now).Truncate (1 * Second)).UTC }
    match conn.Update template s with
    | (.error err, s) => (({}, some (RepoError.db err)), s)
    | (.ok _, s) => ((template, none), s)

/-- The method `TemplatesRepo.Destroy`: nothing to do when `Find` reports
`ErrRecordNotFound`; any other error of `Find` is returned; otherwise the found template is
deleted and the error of the delete returned. -/
def TemplatesRepo.Destroy {σ : Type} (conn : TemplatesConnection σ) (templateName : String)
    (s : σ) : Option RepoError × σ :=
  match TemplatesRepo.Find conn templateName s with
  | ((_, some err), s) =>
    if err = RepoError.ErrRecordNotFound then (none, s) else (some err, s)
  | ((template, none), s) =>
    match conn.Delete template s with
    | (.error err, s) => (some (RepoError.db err), s)
    | (.ok _, s) => (none, s)

end models

namespace handlers

/-! ## The web handlers (package `web/handlers`) -/

/-- The status `http.StatusOK`. -/
def StatusOK : Nat := 200

/-- One call on the `http.ResponseWriter`; bytes are numbers below 256. -/
inductive WriterCall where
  | WriteHeader (statusCode : Nat)
  | Write (bytes : List Nat)
deriving DecidableEq, Repr

/-- The method `NotifyEmail.Execute`: `notifyExecute` is the answer of
`handler.notify.Execute` for the request (the output and the error, `none` being nil), `w`
is the log of the calls made on the response writer so far.  Returns the log after the call
and the error. -/
def NotifyEmail.Execute {ε : Type} (notifyExecute : List Nat × Option ε) (w : List WriterCall) :
    List WriterCall × Option ε :=
  match notifyExecute with
  | (_, some err) => (w, some err)
  | (output, none) => (w ++ [WriterCall.WriteHeader StatusOK, WriterCall.Write output], none)

/-- The function `strings.HasPrefix`. -/
def HasPrefix (s pre : String) : Bool := pre.data.isPrefixOf s.data

/-- The function `strings.TrimPrefix`: `s` without the leading `pre`, or `s` itself when
it does not start with `pre`. -/
def TrimPrefix (s pre : String) : String :=
  if HasPrefix s pre then ⟨s.data.drop pre.data.length⟩ else s

/-- The method `GetPreferencesForUser.parseGUID`. -/
def parseGUID (path : String) : String := TrimPrefix path "/user_preferences/"

end handlers

namespace unsubscribers

/-! ## The unsubscribe filter -/

/-- An unsubscribe record (`collections.Unsubscriber`). -/
structure Unsubscriber where
  CampaignTypeID : String
  UserGUID : String
deriving DecidableEq, Repr

/-- What the filter reads: the criticality flag of each campaign type and the unsubscribe
records. -/
structure Store where
  critical : String → Bool
  unsubscribers : List Unsubscriber

/-- One read of the filter. -/
inductive Lookup where
  | campaignType (campaignTypeID : String)
  | unsubscriber (campaignTypeID userGUID : String)
deriving DecidableEq, Repr

/-- Modelled from the spec: the unsubscribe filter `IsSuppressed` (section 4.5; no source
file of the repository under `src/` holds it).  A critical campaign type short-circuits to
"not suppressed" without consulting the unsubscribe records; otherwise the answer is
whether a record exists for the pair.  Returns the answer and the reads made. -/
def IsSuppressed (store : Store) (campaignTypeID userGUID : String) : Bool × List Lookup :=
  if store.critical campaignTypeID then (false, [Lookup.campaignType campaignTypeID])
  else
    (store.unsubscribers.contains ⟨campaignTypeID, userGUID⟩,
      [Lookup.campaignType campaignTypeID, Lookup.unsubscriber campaignTypeID userGUID])

/-- True when the unsubscribe records were consulted. -/
def consultedUnsubscribers (reads : List Lookup) : Bool :=
  reads.any fun r => match r with | .unsubscriber _ _ => true | _ => false

end unsubscribers

/-! # Theorems -/

namespace queue

/-! ## The enqueuer: lemmas on the insert loop -/

theorem insertMessages_shape (env : Collaborators) (tx : Handle) (req : Request)
    (users : List User) (k : Nat) :
    ∃ rs : List (Except String Message),
      (insertMessages env tx req users k).1 = rs.map (Call.Insert tx (newMessage req)) := by
  induction users generalizing k with
  | nil => exact ⟨[], rfl⟩
  | cons user rest ih =>
    obtain ⟨rs, hrs⟩ := ih (k + 1)
    unfold insertMessages
    cases hI : env.Insert k (newMessage req) with
    | error e => exact ⟨[.error e], rfl⟩
    | ok message =>
      cases hR : insertMessages env tx req rest (k + 1) with
      | mk calls r =>
        rw [hR] at hrs
        cases r with
        | error e => exact ⟨.ok message :: rs, by simpa using hrs⟩
        | ok jobs => exact ⟨.ok message :: rs, by simpa using hrs⟩

theorem insertMessages_length_le (env : Collaborators) (tx : Handle) (req : Request)
    (users : List User) (k : Nat) :
    (insertMessages env tx req users k).1.length ≤ users.length := by
  induction users generalizing k with
  | nil => simp [insertMessages]
  | cons user rest ih =>
    have h := ih (k + 1)
    unfold insertMessages
    cases hI : env.Insert k (newMessage req) with
    | error e => simp
    | ok message =>
      cases hR : insertMessages env tx req rest (k + 1) with
      | mk calls r =>
        rw [hR] at h
        cases r <;> simpa using h

theorem insertMessages_ok (env : Collaborators) (tx : Handle) (req : Request)
    (users : List User) (k : Nat) (jobs : List Delivery)
    (h : (insertMessages env tx req users k).2 = .ok jobs) :
    insertFailed (insertMessages env tx req users k).1 = false ∧
      (storedMessageIDs (insertMessages env tx req users k).1).length = users.length ∧
      (insertMessages env tx req users k).1.length = users.length ∧
      jobs = List.zipWith (expectedDelivery req) users
        (storedMessageIDs (insertMessages env tx req users k).1) := by
  induction users generalizing k jobs with
  | nil =>
    simp [insertMessages] at h
    subst h
    simp [insertMessages, insertFailed, storedMessageIDs]
  | cons user rest ih =>
    unfold insertMessages at h ⊢
    cases hI : env.Insert k (newMessage req) with
    | error e => simp [hI] at h
    | ok message =>
      cases hR : insertMessages env tx req rest (k + 1) with
      | mk calls r =>
        cases r with
        | error e => simp [hI, hR] at h
        | ok jobs1 =>
          have h1 := ih (k + 1) jobs1 (by rw [hR])
          rw [hR] at h1
          simp [hI, hR] at h
          subst h
          simp only [insertFailed, storedMessageIDs] at h1 ⊢
          simp [h1.1, h1.2.1, h1.2.2.1, newDelivery, expectedDelivery]
          exact h1.2.2.2

theorem insertMessages_error (env : Collaborators) (tx : Handle) (req : Request)
    (users : List User) (k : Nat) (e : String)
    (h : (insertMessages env tx req users k).2 = .error e) :
    insertFailed (insertMessages env tx req users k).1 = true := by
  induction users generalizing k with
  | nil => simp [insertMessages] at h
  | cons user rest ih =>
    unfold insertMessages at h ⊢
    cases hI : env.Insert k (newMessage req) with
    | error e1 => simp [insertFailed]
    | ok message =>
      cases hR : insertMessages env tx req rest (k + 1) with
      | mk calls r =>
        cases r with
        | ok jobs1 => simp [hI, hR] at h
        | error e1 =>
          have h1 := ih (k + 1) (by rw [hR]; simpa [hI, hR] using h)
          rw [hR] at h1
          simp only [insertFailed] at h1 ⊢
          simp [h1]

/-! ## Observations distribute over concatenation -/

theorem beginCalled_append (a b : List Call) :
    beginCalled (a ++ b) = (beginCalled a || beginCalled b) := by
  simp [beginCalled]

theorem commitCalled_append (a b : List Call) :
    commitCalled (a ++ b) = (commitCalled a || commitCalled b) := by
  simp [commitCalled]

theorem rollbackCalled_append (a b : List Call) :
    rollbackCalled (a ++ b) = (rollbackCalled a || rollbackCalled b) := by
  simp [rollbackCalled]

theorem insertFailed_append (a b : List Call) :
    insertFailed (a ++ b) = (insertFailed a || insertFailed b) := by
  simp [insertFailed]

theorem enqueueFailed_append (a b : List Call) :
    enqueueFailed (a ++ b) = (enqueueFailed a || enqueueFailed b) := by
  simp [enqueueFailed]

theorem enqueueSucceeded_append (a b : List Call) :
    enqueueSucceeded (a ++ b) = (enqueueSucceeded a || enqueueSucceeded b) := by
  simp [enqueueSucceeded]

theorem commitFailed_append (a b : List Call) :
    commitFailed (a ++ b) = (commitFailed a || commitFailed b) := by
  simp [commitFailed]

theorem insertedMessages_append (a b : List Call) :
    insertedMessages (a ++ b) = insertedMessages a ++ insertedMessages b := by
  simp [insertedMessages]

theorem insertConnections_append (a b : List Call) :
    insertConnections (a ++ b) = insertConnections a ++ insertConnections b := by
  simp [insertConnections]

theorem enqueueConnections_append (a b : List Call) :
    enqueueConnections (a ++ b) = enqueueConnections a ++ enqueueConnections b := by
  simp [enqueueConnections]

theorem transactionsObtained_append (a b : List Call) :
    transactionsObtained (a ++ b) = transactionsObtained a ++ transactionsObtained b := by
  simp [transactionsObtained]

theorem resolvedTransactions_append (a b : List Call) :
    resolvedTransactions (a ++ b) = resolvedTransactions a ++ resolvedTransactions b := by
  simp [resolvedTransactions]

theorem initializedDbMaps_append (a b : List Call) :
    initializedDbMaps (a ++ b) = initializedDbMaps a ++ initializedDbMaps b := by
  simp [initializedDbMaps]

theorem submissions_append (a b : List Call) :
    submissions (a ++ b) = submissions a ++ submissions b := by
  simp [submissions]

theorem storedMessageIDs_append (a b : List Call) :
    storedMessageIDs (a ++ b) = storedMessageIDs a ++ storedMessageIDs b := by
  simp [storedMessageIDs]

/-! ## Observations on a run of inserts -/

/-- A run of inserts contains no call of another kind, and every insert in it goes through
the same handle with the same message. -/
theorem observe_inserts (tx : Handle) (m : Message) (rs : List (Except String Message)) :
    beginCalled (rs.map (Call.Insert tx m)) = false ∧
    commitCalled (rs.map (Call.Insert tx m)) = false ∧
    rollbackCalled (rs.map (Call.Insert tx m)) = false ∧
    enqueueFailed (rs.map (Call.Insert tx m)) = false ∧
    enqueueSucceeded (rs.map (Call.Insert tx m)) = false ∧
    commitFailed (rs.map (Call.Insert tx m)) = false ∧
    transactionsObtained (rs.map (Call.Insert tx m)) = [] ∧
    enqueueConnections (rs.map (Call.Insert tx m)) = [] ∧
    resolvedTransactions (rs.map (Call.Insert tx m)) = [] ∧
    initializedDbMaps (rs.map (Call.Insert tx m)) = [] ∧
    submissions (rs.map (Call.Insert tx m)) = [] ∧
    insertedMessages (rs.map (Call.Insert tx m)) = List.replicate rs.length m ∧
    insertConnections (rs.map (Call.Insert tx m)) = List.replicate rs.length tx ∧
    (∀ b rest, commitSeenAtEnqueue b (rs.map (Call.Insert tx m) ++ rest)
      = commitSeenAtEnqueue b rest) := by
  induction rs with
  | nil =>
    simp [beginCalled, commitCalled, rollbackCalled, enqueueFailed, enqueueSucceeded,
      commitFailed, transactionsObtained, enqueueConnections, resolvedTransactions,
      initializedDbMaps, submissions, insertedMessages, insertConnections]
  | cons r rs ih =>
    simp only [beginCalled, commitCalled, rollbackCalled, enqueueFailed, enqueueSucceeded,
      commitFailed, transactionsObtained, enqueueConnections, resolvedTransactions,
      initializedDbMaps, submissions, insertedMessages, insertConnections] at ih ⊢
    obtain ⟨h1, h2, h3, h4, h5, h6, h7, h8, h9, h10, h11, h12, h13, h14⟩ := ih
    simp [h1, h2, h3, h4, h5, h6, h7, h8, h9, h10, h11, h12, h13, List.replicate_succ,
      commitSeenAtEnqueue, h14]

/-- The log of `Enqueue`, and its outcome, by the first step that fails. -/
theorem Enqueue_cases (env : Collaborators) (conn : Handle) (users : List User) (req : Request) :
    (∃ e, (insertMessages env (env.Transaction conn) req users 0).2 = .error e ∧
      Enqueue env conn users req =
        ([Call.Transaction conn (env.Transaction conn),
          Call.GetDbMap (env.Transaction conn) (env.GetDbMap (env.Transaction conn)),
          Call.InitializeDBMap (env.GetDbMap (env.Transaction conn)),
          Call.Begin (env.Transaction conn)]
          ++ (insertMessages env (env.Transaction conn) req users 0).1
          ++ [Call.Rollback (env.Transaction conn)], .error e)) ∨
    (∃ jobs, (insertMessages env (env.Transaction conn) req users 0).2 = .ok jobs ∧
      ((∃ e, env.Enqueue jobs = some e ∧
        Enqueue env conn users req =
          ([Call.Transaction conn (env.Transaction conn),
            Call.GetDbMap (env.Transaction conn) (env.GetDbMap (env.Transaction conn)),
            Call.InitializeDBMap (env.GetDbMap (env.Transaction conn)),
            Call.Begin (env.Transaction conn)]
            ++ (insertMessages env (env.Transaction conn) req users 0).1
            ++ [Call.Enqueue (env.Transaction conn) jobs (some e),
                Call.Rollback (env.Transaction conn)], .error e)) ∨
       (env.Enqueue jobs = none ∧
        Enqueue env conn users req =
          ([Call.Transaction conn (env.Transaction conn),
            Call.GetDbMap (env.Transaction conn) (env.GetDbMap (env.Transaction conn)),
            Call.InitializeDBMap (env.GetDbMap (env.Transaction conn)),
            Call.Begin (env.Transaction conn)]
            ++ (insertMessages env (env.Transaction conn) req users 0).1
            ++ [Call.Enqueue (env.Transaction conn) jobs none,
                Call.Commit (env.Transaction conn) env.Commit],
           match env.Commit with
           | some e => .error e
           | none => .committed)))) := by
  cases hR : insertMessages env (env.Transaction conn) req users 0 with
  | mk calls r =>
    cases r with
    | error e => exact Or.inl ⟨e, rfl, by simp only [Enqueue, hR]⟩
    | ok jobs =>
      refine Or.inr ⟨jobs, rfl, ?_⟩
      cases hQ : env.Enqueue jobs with
      | some e => exact Or.inl ⟨e, rfl, by simp only [Enqueue, hR, hQ]⟩
      | none =>
        refine Or.inr ⟨rfl, ?_⟩
        cases hC : env.Commit <;> simp only [Enqueue, hR, hQ, hC]

/-! ## The enqueuer: the claims -/

/-- C1: in every execution of `Enqueue`, `Commit` is called if and only if every message
insert succeeded (no insert failed and one message was stored per recipient) and the
queue submission succeeded; when all succeed `Begin` and `Commit` are called and
`Rollback` is not; when a message insert or the queue submission fails, `Rollback` is
called and `Commit` is not. -/
theorem Enqueue_commits_iff_all_succeeded (env : Collaborators) (conn : Handle)
    (users : List User) (req : Request) :
    (commitCalled (Enqueue env conn users req).1 = true ↔
      (insertFailed (Enqueue env conn users req).1 = false ∧
        (storedMessageIDs (Enqueue env conn users req).1).length = users.length ∧
        enqueueSucceeded (Enqueue env conn users req).1 = true)) ∧
    ((insertFailed (Enqueue env conn users req).1 = false ∧
        enqueueSucceeded (Enqueue env conn users req).1 = true) →
      beginCalled (Enqueue env conn users req).1 = true ∧
        commitCalled (Enqueue env conn users req).1 = true ∧
        rollbackCalled (Enqueue env conn users req).1 = false) ∧
    ((insertFailed (Enqueue env conn users req).1 = true ∨
        enqueueFailed (Enqueue env conn users req).1 = true) →
      beginCalled (Enqueue env conn users req).1 = true ∧
        rollbackCalled (Enqueue env conn users req).1 = true ∧
        commitCalled (Enqueue env conn users req).1 = false) := by
  obtain ⟨rs, hrs⟩ := insertMessages_shape env (env.Transaction conn) req users 0
  have obs := observe_inserts (env.Transaction conn) (newMessage req) rs
  rw [← hrs] at obs
  obtain ⟨o1, o2, o3, o4, o5, o6, -⟩ := obs
  rcases Enqueue_cases env conn users req with ⟨e, hr, hE⟩ | ⟨jobs, hr, ⟨e, hQ, hE⟩ | ⟨hQ, hE⟩⟩
  · have hf := insertMessages_error env _ req users 0 e hr
    rw [hE]
    simp only [commitCalled_append, insertFailed_append, enqueueSucceeded_append,
      beginCalled_append, rollbackCalled_append, enqueueFailed_append, storedMessageIDs_append,
      o1, o2, o3, o4, o5, o6, hf]
    simp [commitCalled, insertFailed, enqueueSucceeded, beginCalled, rollbackCalled,
      enqueueFailed, storedMessageIDs]
  · have hf := insertMessages_ok env _ req users 0 jobs hr
    rw [hE]
    simp only [commitCalled_append, insertFailed_append, enqueueSucceeded_append,
      beginCalled_append, rollbackCalled_append, enqueueFailed_append, storedMessageIDs_append,
      o1, o2, o3, o4, o5, o6, hf.1]
    simp [commitCalled, insertFailed, enqueueSucceeded, beginCalled, rollbackCalled,
      enqueueFailed, storedMessageIDs]
  · have hf := insertMessages_ok env _ req users 0 jobs hr
    rw [hE]
    simp only [commitCalled_append, insertFailed_append, enqueueSucceeded_append,
      beginCalled_append, rollbackCalled_append, enqueueFailed_append, storedMessageIDs_append,
      o1, o2, o3, o4, o5, o6, hf.1, List.length_append, hf.2.1]
    simp [commitCalled, insertFailed, enqueueSucceeded, beginCalled, rollbackCalled,
      enqueueFailed, storedMessageIDs]

/-- Witness of C1 on the run of the test "commits the transaction when everything goes
well": four recipients, every collaborator succeeding. -/
theorem Enqueue_commits_iff_all_succeeded_witness :
    beginCalled (Enqueue (scripted testIDs [] none none) (Handle.connection 0)
        [⟨"user-1", ""⟩, ⟨"user-2", ""⟩, ⟨"user-3", ""⟩, ⟨"user-4", ""⟩] testRequest).1 = true ∧
      commitCalled (Enqueue (scripted testIDs [] none none) (Handle.connection 0)
        [⟨"user-1", ""⟩, ⟨"user-2", ""⟩, ⟨"user-3", ""⟩, ⟨"user-4", ""⟩] testRequest).1 = true ∧
      rollbackCalled (Enqueue (scripted testIDs [] none none) (Handle.connection 0)
        [⟨"user-1", ""⟩, ⟨"user-2", ""⟩, ⟨"user-3", ""⟩, ⟨"user-4", ""⟩] testRequest).1 = false :=
  (Enqueue_commits_iff_all_succeeded (scripted testIDs [] none none) (Handle.connection 0)
    [⟨"user-1", ""⟩, ⟨"user-2", ""⟩, ⟨"user-3", ""⟩, ⟨"user-4", ""⟩] testRequest).2.1
    ⟨by decide, by decide⟩

/-- C2: a successful `Enqueue` for `N` recipients makes one queue submission of exactly `N`
jobs, and the job of the `i`-th recipient carries jobType "v2", the endorsement and the
GUID of that recipient, the ID of the `i`-th stored message as messageID, and the space,
organization, clientID, uaaHost, scope, request ID, request-received time and campaignID
of the call. -/
theorem Enqueue_submits_one_job_per_recipient (env : Collaborators) (conn : Handle)
    (users : List User) (req : Request)
    (h : (Enqueue env conn users req).2 = Outcome.committed) :
    (submittedJobs (Enqueue env conn users req).1).length = users.length ∧
      (submissions (Enqueue env conn users req).1).length = 1 ∧
      (storedMessageIDs (Enqueue env conn users req).1).length = users.length ∧
      submittedJobs (Enqueue env conn users req).1 =
        List.zipWith
          (fun user messageID =>
            ({ JobType := "v2"
               Options := { Endorsement := user.Endorsement }
               UserGUID := user.GUID
               Space := req.space
               Organization := req.organization
               ClientID := req.clientID
               MessageID := messageID
               UAAHost := req.uaaHost
               Scope := req.scope
               VCAPRequestID := req.vcapRequestID
               RequestReceived := req.reqReceived
               CampaignID := req.campaignID } : Delivery))
          users (storedMessageIDs (Enqueue env conn users req).1) := by
  obtain ⟨rs, hrs⟩ := insertMessages_shape env (env.Transaction conn) req users 0
  have obs := observe_inserts (env.Transaction conn) (newMessage req) rs
  rw [← hrs] at obs
  obtain ⟨-, -, -, -, -, -, -, -, -, -, o11, -⟩ := obs
  rcases Enqueue_cases env conn users req with ⟨e, hr, hE⟩ | ⟨jobs, hr, ⟨e, hQ, hE⟩ | ⟨hQ, hE⟩⟩
  · rw [hE] at h
    exact absurd h (by simp)
  · rw [hE] at h
    exact absurd h (by simp)
  · have hf := insertMessages_ok env _ req users 0 jobs hr
    have hj : jobs.length = users.length := by
      have := congrArg List.length hf.2.2.2
      simpa [hf.2.1] using this
    rw [hE]
    simp only [submittedJobs, submissions_append, storedMessageIDs_append, o11]
    have e1 : submissions [Call.Transaction conn (env.Transaction conn),
        Call.GetDbMap (env.Transaction conn) (env.GetDbMap (env.Transaction conn)),
        Call.InitializeDBMap (env.GetDbMap (env.Transaction conn)),
        Call.Begin (env.Transaction conn)] = [] := by simp [submissions]
    have e2 : submissions [Call.Enqueue (env.Transaction conn) jobs none,
        Call.Commit (env.Transaction conn) env.Commit] = [jobs] := by simp [submissions]
    have e3 : storedMessageIDs [Call.Transaction conn (env.Transaction conn),
        Call.GetDbMap (env.Transaction conn) (env.GetDbMap (env.Transaction conn)),
        Call.InitializeDBMap (env.GetDbMap (env.Transaction conn)),
        Call.Begin (env.Transaction conn)] = [] := by simp [storedMessageIDs]
    have e4 : storedMessageIDs [Call.Enqueue (env.Transaction conn) jobs none,
        Call.Commit (env.Transaction conn) env.Commit] = [] := by simp [storedMessageIDs]
    rw [e1, e2, e3, e4]
    simp only [List.nil_append, List.append_nil, List.flatten_cons, List.flatten_nil,
      List.length_singleton]
    refine ⟨hj, trivial, hf.2.1, ?_⟩
    exact hf.2.2.2

/-- Witness of C2 on the run of the test "enqueues jobs with the deliveries". -/
theorem Enqueue_submits_one_job_per_recipient_witness :
    submittedJobs (Enqueue (scripted testIDs [] none none) (Handle.connection 0)
        [⟨"user-1", "endores 1"⟩, ⟨"user-2", "endores 2"⟩] testRequest).1 =
      [⟨"v2", ⟨"endores 1"⟩, "user-1", ⟨"the-space"⟩, ⟨"the-org"⟩, "the-client",
          "first-random-guid", "my-uaa-host", "my.scope", "some-request-id",
          1433799612207187819, "some-campaign"⟩,
       ⟨"v2", ⟨"endores 2"⟩, "user-2", ⟨"the-space"⟩, ⟨"the-org"⟩, "the-client",
          "second-random-guid", "my-uaa-host", "my.scope", "some-request-id",
          1433799612207187819, "some-campaign"⟩] :=
  (Enqueue_submits_one_job_per_recipient (scripted testIDs [] none none) (Handle.connection 0)
    [⟨"user-1", "endores 1"⟩, ⟨"user-2", "endores 2"⟩] testRequest (by decide)).2.2.2.trans
    (by decide)

/-- Every message `Enqueue` hands to the messages repository has status queued, the
campaignID of the call and no ID; there are at most `N` of them for `N` recipients, and
exactly `N` when no insert fails. -/
theorem Enqueue_inserts_queued_messages (env : Collaborators) (conn : Handle)
    (users : List User) (req : Request) :
    (∀ m ∈ insertedMessages (Enqueue env conn users req).1,
        m = ⟨"", req.campaignID, "queued", 0⟩) ∧
      (insertedMessages (Enqueue env conn users req).1).length ≤ users.length ∧
      (insertFailed (Enqueue env conn users req).1 = false →
        (insertedMessages (Enqueue env conn users req).1).length = users.length) := by
  obtain ⟨rs, hrs⟩ := insertMessages_shape env (env.Transaction conn) req users 0
  have obs := observe_inserts (env.Transaction conn) (newMessage req) rs
  have hle := insertMessages_length_le env (env.Transaction conn) req users 0
  have hlen : rs.length = (insertMessages env (env.Transaction conn) req users 0).1.length := by
    rw [hrs, List.length_map]
  rw [← hrs] at obs
  obtain ⟨-, -, -, -, -, -, -, -, -, -, -, o12, -⟩ := obs
  have e1 : insertedMessages [Call.Transaction conn (env.Transaction conn),
      Call.GetDbMap (env.Transaction conn) (env.GetDbMap (env.Transaction conn)),
      Call.InitializeDBMap (env.GetDbMap (env.Transaction conn)),
      Call.Begin (env.Transaction conn)] = [] := by simp [insertedMessages]
  have e5 : insertFailed [Call.Transaction conn (env.Transaction conn),
      Call.GetDbMap (env.Transaction conn) (env.GetDbMap (env.Transaction conn)),
      Call.InitializeDBMap (env.GetDbMap (env.Transaction conn)),
      Call.Begin (env.Transaction conn)] = false := by simp [insertFailed]
  have hm : ∀ m ∈ List.replicate rs.length (newMessage req),
      m = ⟨"", req.campaignID, "queued", 0⟩ := by
    intro m hm
    rw [(List.mem_replicate.mp hm).2]
    rfl
  rcases Enqueue_cases env conn users req with ⟨e, hr, hE⟩ | ⟨jobs, hr, ⟨e, hQ, hE⟩ | ⟨hQ, hE⟩⟩
  · have hf := insertMessages_error env _ req users 0 e hr
    have e2 : insertedMessages [Call.Rollback (env.Transaction conn)] = [] := by
      simp [insertedMessages]
    rw [hE]
    simp only [insertedMessages_append, insertFailed_append, o12, e1, e2, e5, hf,
      List.nil_append, List.append_nil, List.length_replicate]
    exact ⟨hm, hlen ▸ hle, by simp⟩
  · have hf := insertMessages_ok env _ req users 0 jobs hr
    have e2 : insertedMessages [Call.Enqueue (env.Transaction conn) jobs (some e),
        Call.Rollback (env.Transaction conn)] = [] := by simp [insertedMessages]
    rw [hE]
    simp only [insertedMessages_append, o12, e1, e2,
      List.nil_append, List.append_nil, List.length_replicate]
    exact ⟨hm, hlen ▸ hle, fun _ => hlen.trans hf.2.2.1⟩
  · have hf := insertMessages_ok env _ req users 0 jobs hr
    have e2 : insertedMessages [Call.Enqueue (env.Transaction conn) jobs none,
        Call.Commit (env.Transaction conn) env.Commit] = [] := by simp [insertedMessages]
    rw [hE]
    simp only [insertedMessages_append, o12, e1, e2,
      List.nil_append, List.append_nil, List.length_replicate]
    exact ⟨hm, hlen ▸ hle, fun _ => hlen.trans hf.2.2.1⟩

/-- A committed `Enqueue` had no failing insert. -/
theorem committed_no_insert_failed (env : Collaborators) (conn : Handle)
    (users : List User) (req : Request)
    (h : (Enqueue env conn users req).2 = Outcome.committed) :
    insertFailed (Enqueue env conn users req).1 = false := by
  rcases Enqueue_cases env conn users req with ⟨e, hr, hE⟩ | ⟨jobs, hr, ⟨e, hQ, hE⟩ | ⟨hQ, hE⟩⟩
  · rw [hE] at h
    exact absurd h (by simp)
  · rw [hE] at h
    exact absurd h (by simp)
  · have hf := insertMessages_ok env _ req users 0 jobs hr
    rw [hE]
    simp only [insertFailed_append, hf.1]
    simp [insertFailed]

/-- C3: for every list of `N` recipients, a successful `Enqueue` (and more generally every
run in which no message insert fails) inserts exactly `N` messages through the messages
repository, each with status queued, the campaignID of the call and no ID. -/
theorem Enqueue_inserts_one_message_per_recipient (env : Collaborators) (conn : Handle)
    (users : List User) (req : Request)
    (h : (Enqueue env conn users req).2 = Outcome.committed ∨
      insertFailed (Enqueue env conn users req).1 = false) :
    (insertedMessages (Enqueue env conn users req).1).length = users.length ∧
      insertedMessages (Enqueue env conn users req).1 =
        List.replicate users.length ⟨"", req.campaignID, "queued", 0⟩ := by
  have hnf : insertFailed (Enqueue env conn users req).1 = false := by
    rcases h with h | h
    · exact committed_no_insert_failed env conn users req h
    · exact h
  obtain ⟨hall, -, hlen⟩ := Enqueue_inserts_queued_messages env conn users req
  refine ⟨hlen hnf, ?_⟩
  rw [List.eq_replicate_iff]
  exact ⟨hlen hnf, hall⟩

/-- Witness of C3 on the run of the test "Inserts a StatusQueued for each of the jobs": four
recipients, a committed `Enqueue`, four inserts of the queued message of the campaign. -/
theorem Enqueue_inserts_one_message_per_recipient_witness :
    insertedMessages (Enqueue (scripted testIDs [] none none) (Handle.connection 0)
        [⟨"user-1", ""⟩, ⟨"user-2", ""⟩, ⟨"user-3", ""⟩, ⟨"user-4", ""⟩] testRequest).1 =
      [⟨"", "some-campaign", "queued", 0⟩, ⟨"", "some-campaign", "queued", 0⟩,
       ⟨"", "some-campaign", "queued", 0⟩, ⟨"", "some-campaign", "queued", 0⟩] :=
  (Enqueue_inserts_one_message_per_recipient (scripted testIDs [] none none)
    (Handle.connection 0)
    [⟨"user-1", ""⟩, ⟨"user-2", ""⟩, ⟨"user-3", ""⟩, ⟨"user-4", ""⟩] testRequest
    (Or.inl (by decide))).2

/-- C4: `Enqueue` obtains exactly one transaction, from the connection it is given; every
message insert and the queue submission receive that transaction as their connection;
`Begin`, `Commit` and `Rollback` are called on it; and the queue initializer receives the
DbMap of that transaction. -/
theorem Enqueue_uses_one_transaction (env : Collaborators) (conn : Handle)
    (users : List User) (req : Request) :
    transactionsObtained (Enqueue env conn users req).1 = [(conn, env.Transaction conn)] ∧
      (∀ h ∈ insertConnections (Enqueue env conn users req).1, h = env.Transaction conn) ∧
      (∀ h ∈ enqueueConnections (Enqueue env conn users req).1, h = env.Transaction conn) ∧
      (∀ h ∈ resolvedTransactions (Enqueue env conn users req).1, h = env.Transaction conn) ∧
      initializedDbMaps (Enqueue env conn users req).1 = [env.GetDbMap (env.Transaction conn)] := by
  obtain ⟨rs, hrs⟩ := insertMessages_shape env (env.Transaction conn) req users 0
  have obs := observe_inserts (env.Transaction conn) (newMessage req) rs
  rw [← hrs] at obs
  obtain ⟨-, -, -, -, -, -, o7, o8, o9, o10, -, -, o13, -⟩ := obs
  rcases Enqueue_cases env conn users req with ⟨e, hr, hE⟩ | ⟨jobs, hr, ⟨e, hQ, hE⟩ | ⟨hQ, hE⟩⟩
  all_goals
    rw [hE]
    simp only [transactionsObtained_append, insertConnections_append,
      enqueueConnections_append, resolvedTransactions_append, initializedDbMaps_append,
      o7, o8, o9, o10, o13]
    simp [transactionsObtained, insertConnections, enqueueConnections, resolvedTransactions,
      initializedDbMaps]

/-- The flag read at a queue submission is the flag at the start of the log, or that a
`Commit` precedes the submission. -/
theorem commitSeenAtEnqueue_split (b : Bool) (pre post : List Call) (h : Handle)
    (jobs : List Delivery) (r : Option String) :
    commitSeenAtEnqueue b (pre ++ Call.Enqueue h jobs r :: post) =
      commitSeenAtEnqueue b pre ++
        (b || commitCalled pre) :: commitSeenAtEnqueue (b || commitCalled pre) post := by
  induction pre generalizing b with
  | nil => simp [commitSeenAtEnqueue, commitCalled]
  | cons c pre ih =>
    cases c <;> simp [commitSeenAtEnqueue, commitCalled, ih]

/-- The four opening calls of `Enqueue` are neither commits nor queue submissions. -/
theorem commitSeenAtEnqueue_opening (b : Bool) (c tx : Handle) (d e : Nat) (rest : List Call) :
    commitSeenAtEnqueue b
        (Call.Transaction c tx :: Call.GetDbMap tx d :: Call.InitializeDBMap e :: Call.Begin tx
          :: rest) =
      commitSeenAtEnqueue b rest := rfl

/-- C5: in every execution of `Enqueue`, no `Commit` precedes a queue submission: whenever
the log splits as `pre`, a queue submission, `post`, `Commit` has not been called in
`pre`; and the flag the test's hook reads at each submission is false. -/
theorem Enqueue_no_commit_before_queue (env : Collaborators) (conn : Handle)
    (users : List User) (req : Request) :
    (∀ b ∈ commitSeenAtEnqueue false (Enqueue env conn users req).1, b = false) ∧
      ∀ (pre post : List Call) (h : Handle) (jobs : List Delivery) (r : Option String),
        (Enqueue env conn users req).1 = pre ++ Call.Enqueue h jobs r :: post →
          commitCalled pre = false := by
  have key : ∀ b ∈ commitSeenAtEnqueue false (Enqueue env conn users req).1, b = false := by
    obtain ⟨rs, hrs⟩ := insertMessages_shape env (env.Transaction conn) req users 0
    have obs := observe_inserts (env.Transaction conn) (newMessage req) rs
    rw [← hrs] at obs
    obtain ⟨-, -, -, -, -, -, -, -, -, -, -, -, -, o14⟩ := obs
    rcases Enqueue_cases env conn users req with ⟨e, hr, hE⟩ | ⟨jobs, hr, ⟨e, hQ, hE⟩ | ⟨hQ, hE⟩⟩
    all_goals
      rw [hE]
      rw [List.append_assoc, List.cons_append, List.cons_append, List.cons_append,
        List.cons_append, List.nil_append]
      rw [commitSeenAtEnqueue_opening, o14]
      simp [commitSeenAtEnqueue]
  refine ⟨key, ?_⟩
  intro pre post h jobs r hsplit
  have hmem := key (false || commitCalled pre) (by
    rw [hsplit, commitSeenAtEnqueue_split]
    simp)
  simpa using hmem

/-- Witness of C5 on a run with one recipient and every collaborator succeeding: the calls
before the queue submission contain no `Commit`. -/
theorem Enqueue_no_commit_before_queue_witness :
    commitCalled
      [Call.Transaction (Handle.connection 0) (Handle.transaction 1),
       Call.GetDbMap (Handle.transaction 1) 7,
       Call.InitializeDBMap 7,
       Call.Begin (Handle.transaction 1),
       Call.Insert (Handle.transaction 1) ⟨"", "some-campaign", "queued", 0⟩
         (.ok ⟨"first-random-guid", "some-campaign", "queued", 0⟩)] = false :=
  (Enqueue_no_commit_before_queue (scripted testIDs [] none none) (Handle.connection 0)
    [⟨"user-1", ""⟩] testRequest).2 _ [Call.Commit (Handle.transaction 1) none]
    (Handle.transaction 1)
    [⟨"v2", ⟨""⟩, "user-1", ⟨"the-space"⟩, ⟨"the-org"⟩, "the-client", "first-random-guid",
      "my-uaa-host", "my.scope", "some-request-id", 1433799612207187819, "some-campaign"⟩]
    none rfl

/-- C6: when no message insert fails and the queue submission succeeds but `Commit` returns
an error, `Enqueue` has called `Commit`, does not call `Rollback`, and reports the error of
the commit to its caller. -/
theorem Enqueue_failed_commit_no_rollback (env : Collaborators) (conn : Handle)
    (users : List User) (req : Request) (e : String)
    (hI : insertFailed (Enqueue env conn users req).1 = false)
    (hQ : enqueueSucceeded (Enqueue env conn users req).1 = true)
    (hC : env.Commit = some e) :
    commitCalled (Enqueue env conn users req).1 = true ∧
      commitFailed (Enqueue env conn users req).1 = true ∧
      rollbackCalled (Enqueue env conn users req).1 = false ∧
      (Enqueue env conn users req).2 = Outcome.error e := by
  obtain ⟨rs, hrs⟩ := insertMessages_shape env (env.Transaction conn) req users 0
  have obs := observe_inserts (env.Transaction conn) (newMessage req) rs
  rw [← hrs] at obs
  obtain ⟨o1, o2, o3, o4, o5, o6, -⟩ := obs
  rcases Enqueue_cases env conn users req with ⟨e1, hr, hE⟩ | ⟨jobs, hr, ⟨e1, hQ1, hE⟩ | ⟨hQ1, hE⟩⟩
  · have hf := insertMessages_error env _ req users 0 e1 hr
    rw [hE] at hI
    simp only [insertFailed_append, hf] at hI
    simp at hI
  · rw [hE] at hQ
    simp only [enqueueSucceeded_append, o5] at hQ
    simp [enqueueSucceeded] at hQ
  · rw [hE, hC]
    simp only [commitCalled_append, commitFailed_append, rollbackCalled_append, o2, o3, o6]
    simp [commitCalled, commitFailed, rollbackCalled]

/-- Witness of C6 on the run of the test "when the commit fails": four recipients, the
commit answering with an error. -/
theorem Enqueue_failed_commit_no_rollback_witness :
    commitCalled (Enqueue (scripted testIDs [] none (some "the commit blew up"))
        (Handle.connection 0)
        [⟨"user-1", ""⟩, ⟨"user-2", ""⟩, ⟨"user-3", ""⟩, ⟨"user-4", ""⟩] testRequest).1 = true ∧
      commitFailed (Enqueue (scripted testIDs [] none (some "the commit blew up"))
        (Handle.connection 0)
        [⟨"user-1", ""⟩, ⟨"user-2", ""⟩, ⟨"user-3", ""⟩, ⟨"user-4", ""⟩] testRequest).1 = true ∧
      rollbackCalled (Enqueue (scripted testIDs [] none (some "the commit blew up"))
        (Handle.connection 0)
        [⟨"user-1", ""⟩, ⟨"user-2", ""⟩, ⟨"user-3", ""⟩, ⟨"user-4", ""⟩] testRequest).1 = false ∧
      (Enqueue (scripted testIDs [] none (some "the commit blew up")) (Handle.connection 0)
        [⟨"user-1", ""⟩, ⟨"user-2", ""⟩, ⟨"user-3", ""⟩, ⟨"user-4", ""⟩] testRequest).2
        = Outcome.error "the commit blew up" :=
  Enqueue_failed_commit_no_rollback (scripted testIDs [] none (some "the commit blew up"))
    (Handle.connection 0)
    [⟨"user-1", ""⟩, ⟨"user-2", ""⟩, ⟨"user-3", ""⟩, ⟨"user-4", ""⟩] testRequest
    "the commit blew up" (by decide) (by decide) rfl

end queue

namespace models

/-! ## The receipt counter: `Create` -/

/-- C10: `Create` fails with `ErrDuplicateRecord` if and only if the insert of the stamped
receipt fails with an error whose message contains "Duplicate entry"; it then returns the
zero receipt; and any other insert error is returned unchanged (with the zero receipt). -/
theorem Create_duplicate_iff {σ : Type} (conn : ConnectionInterface σ) (now : Nat)
    (receipt : Receipt) (s : σ) :
    ((Create conn now receipt s).1.2 = some RepoError.ErrDuplicateRecord ↔
      ∃ err, (conn.Insert ⟨receipt.UserGUID, receipt.ClientID, receipt.KindID, 1,
          truncatedNow now⟩ s).1 = some err ∧
        stringsContains err.Error "Duplicate entry" = true) ∧
    ((Create conn now receipt s).1.2 = some RepoError.ErrDuplicateRecord →
      (Create conn now receipt s).1.1 = ⟨"", "", "", 0, 0⟩) ∧
    (∀ err, (conn.Insert ⟨receipt.UserGUID, receipt.ClientID, receipt.KindID, 1,
          truncatedNow now⟩ s).1 = some err →
        stringsContains err.Error "Duplicate entry" = false →
        (Create conn now receipt s).1 = (⟨"", "", "", 0, 0⟩, some (RepoError.db err))) := by
  unfold Create
  cases hI : conn.Insert ⟨receipt.UserGUID, receipt.ClientID, receipt.KindID, 1,
      truncatedNow now⟩ s with
  | mk r s1 =>
    cases r with
    | none => simp [hI]
    | some err =>
      by_cases hc : stringsContains err.Error "Duplicate entry" = true
      · simp [hI, hc]
      · simp [hI, hc]

/-- Witness of C10 on the receipts table: creating a receipt whose key is stored fails
with `ErrDuplicateRecord`. -/
theorem Create_duplicate_iff_witness :
    (Create receiptsTable 1500000000 ⟨"user-1", "client", "kind", 5, 0⟩
      [⟨"user-1", "client", "kind", 1, 0⟩]).1.2 = some RepoError.ErrDuplicateRecord :=
  (Create_duplicate_iff receiptsTable 1500000000 ⟨"user-1", "client", "kind", 5, 0⟩
    [⟨"user-1", "client", "kind", 1, 0⟩]).1.mpr
    ⟨DbError.driver "Error 1062: Duplicate entry for key 'user_guid'", by decide, by decide⟩

/-! ## The receipt counter: the statement of `CreateReceipts` -/

/-- `Sprintf` on the format of the batched upsert puts the VALUES clause between the two
fixed parts of the statement. -/
theorem Sprintf_createReceiptsQuery (values : String) :
    Sprintf createReceiptsQuery values =
      "INSERT INTO `receipts` (`user_guid`, `client_id`, `kind_id`, `count`, `created_at`) VALUES "
        ++ values ++ " ON DUPLICATE KEY UPDATE `count`=`count`+1" := by
  apply String.ext
  simp [Sprintf, createReceiptsQuery, sprintfChars]

theorem intercalate_go_eq (acc sep : String) (l : List String) :
    String.intercalate.go acc sep l = acc ++ String.intercalate.go "" sep l := by
  induction l generalizing acc with
  | nil => simp [String.intercalate.go]
  | cons a l ih =>
    simp only [String.intercalate.go]
    rw [ih (acc ++ sep ++ a), ih ("" ++ sep ++ a)]
    simp [String.append_assoc]

/-- The VALUES clause is the groups joined by commas. -/
theorem placeholderGroups_eq_intercalate (n : Nat) :
    placeholderGroups n = ",".intercalate (List.replicate n placeholderGroup) := by
  induction n using Nat.strongRecOn with
  | _ n ih =>
    match n with
    | 0 => rfl
    | 1 => rfl
    | n + 2 =>
      have h := ih (n + 1) (by omega)
      rw [placeholderGroups, h]
      simp only [List.replicate_succ, String.intercalate, String.intercalate.go]
      rw [intercalate_go_eq (placeholderGroup ++ "," ++ placeholderGroup),
        intercalate_go_eq placeholderGroup]
      simp [String.append_assoc]

/-- The loop of `CreateReceipts`, started at index `index` on the last `guids.length` GUIDs
of a batch, appends their placeholder groups and their arguments. -/
theorem createReceiptsLoop_eq (clock : Nat → Nat) (clientID kindID : String)
    (guids : List String) (index : Nat) (values : String) (execArguments : List SQLArg) :
    createReceiptsLoop clock clientID kindID ((index + guids.length : Nat) : Int) guids index
        values execArguments =
      (values ++ placeholderGroups guids.length,
        execArguments ++ batchArguments clock clientID kindID guids index) := by
  induction guids generalizing index values execArguments with
  | nil => simp [createReceiptsLoop, placeholderGroups, batchArguments]
  | cons guid rest ih =>
    have hlen : ((index + (guid :: rest).length : Nat) : Int) =
        ((index + 1 + rest.length : Nat) : Int) := by
      simp only [List.length_cons]
      omega
    unfold createReceiptsLoop
    rw [hlen]
    cases rest with
    | nil =>
      simp [createReceiptsLoop, placeholderGroups, batchArguments, buildExecArguments,
        rowArguments, placeholderGroup]
    | cons g2 rest2 =>
      have hne : ((index : Nat) : Int) ≠ ((index + 1 + (g2 :: rest2).length : Nat) : Int) - 1 := by
        simp only [List.length_cons]
        omega
      simp only [hne, ne_eq, not_false_eq_true, ite_true, if_true]
      rw [ih (index + 1)]
      simp [placeholderGroups, batchArguments, buildExecArguments, rowArguments,
        placeholderGroup, String.append_assoc]

/-- The statement and arguments `CreateReceipts` hands to `Exec`. -/
theorem CreateReceipts_eq {σ : Type} (conn : ConnectionInterface σ) (clock : Nat → Nat)
    (userGUIDs : List String) (clientID kindID : String) (s : σ) :
    CreateReceipts conn clock userGUIDs clientID kindID s =
      conn.Exec (upsertStatement userGUIDs.length)
        (batchArguments clock clientID kindID userGUIDs 0) s := by
  have h := createReceiptsLoop_eq clock clientID kindID userGUIDs 0 "" []
  simp only [Nat.zero_add, List.nil_append, String.empty_append] at h
  unfold CreateReceipts
  simp only [h, Sprintf_createReceiptsQuery]
  unfold upsertStatement
  cases conn.Exec _ _ s with
  | mk r s1 => cases r <;> rfl

theorem batchArguments_length (clock : Nat → Nat) (clientID kindID : String)
    (guids : List String) (index : Nat) :
    (batchArguments clock clientID kindID guids index).length = 5 * guids.length := by
  induction guids generalizing index with
  | nil => rfl
  | cons guid rest ih =>
    simp only [batchArguments, List.length_append, ih, rowArguments, List.length_cons,
      List.length_nil]
    omega

theorem batchArguments_row (clock : Nat → Nat) (clientID kindID : String)
    (guids : List String) (index i : Nat) (hi : i < guids.length) :
    ((batchArguments clock clientID kindID guids index).drop (5 * i)).take 5 =
      [SQLArg.str guids[i], SQLArg.str clientID, SQLArg.str kindID, SQLArg.int 1,
        SQLArg.time (truncatedNow (clock (index + i)))] := by
  induction guids generalizing index i with
  | nil => simp at hi
  | cons guid rest ih =>
    cases i with
    | zero => simp [batchArguments, rowArguments]
    | succ j =>
      have hj : j < rest.length := by simpa using hi
      have h := ih (index + 1) j hj
      have e : 5 * (j + 1) = 5 + 5 * j := by omega
      have e2 : index + 1 + j = index + (j + 1) := by omega
      rw [e2] at h
      simp only [batchArguments, rowArguments, e, List.getElem_cons_succ]
      simpa [← List.drop_drop] using h

/-- C9: the one call `CreateReceipts` makes is `Exec` of the upsert template with `n`
placeholder groups joined by single commas (no trailing comma), `n` being the number of
GUIDs, with `5 n` arguments, the arguments `5 i .. 5 i + 4` being the `i`-th GUID, the
client, the kind, the integer 1 and the creation timestamp of that row (the clock of
iteration `i` truncated to the second). -/
theorem CreateReceipts_statement {σ : Type} (conn : ConnectionInterface σ)
    (clock : Nat → Nat) (userGUIDs : List String) (clientID kindID : String) (s : σ) :
    ∃ args,
      (CreateReceipts (recording conn) clock userGUIDs clientID kindID (s, [])).2.2 =
        [ConnCall.Exec
          ("INSERT INTO `receipts` (`user_guid`, `client_id`, `kind_id`, `count`, `created_at`) VALUES "
            ++ ",".intercalate (List.replicate userGUIDs.length "(?, ?, ?, ?, ?)")
            ++ " ON DUPLICATE KEY UPDATE `count`=`count`+1")
          args] ∧
      args.length = 5 * userGUIDs.length ∧
      ∀ (i : Nat) (hi : i < userGUIDs.length),
        (args.drop (5 * i)).take 5 =
          [SQLArg.str userGUIDs[i], SQLArg.str clientID, SQLArg.str kindID, SQLArg.int 1,
            SQLArg.time (clock i - clock i % 1000000000)] := by
  refine ⟨batchArguments clock clientID kindID userGUIDs 0, ?_, ?_, ?_⟩
  · rw [CreateReceipts_eq]
    simp only [upsertStatement, placeholderGroups_eq_intercalate]
    rfl
  · exact batchArguments_length clock clientID kindID userGUIDs 0
  · intro i hi
    have h := batchArguments_row clock clientID kindID userGUIDs 0 i hi
    simpa [truncatedNow, Truncate, Second] using h

/-! ## The receipt counter: the batched upsert on the receipts table -/

theorem decodeRows_batchArguments (clock : Nat → Nat) (clientID kindID : String)
    (guids : List String) (index : Nat) :
    decodeRows (batchArguments clock clientID kindID guids index) =
      some (batchRows clock clientID kindID guids index) := by
  induction guids generalizing index with
  | nil => rfl
  | cons guid rest ih =>
    simp [batchArguments, rowArguments, decodeRows, batchRows, ih]

theorem batchRows_length (clock : Nat → Nat) (clientID kindID : String)
    (guids : List String) (index : Nat) :
    (batchRows clock clientID kindID guids index).length = guids.length := by
  induction guids generalizing index with
  | nil => rfl
  | cons guid rest ih => simp [batchRows, ih]

theorem batchRows_count (clock : Nat → Nat) (clientID kindID : String)
    (guids : List String) (index : Nat) :
    ∀ r ∈ batchRows clock clientID kindID guids index, r.Count = 1 := by
  induction guids generalizing index with
  | nil => simp [batchRows]
  | cons guid rest ih =>
    intro r hr
    simp only [batchRows, List.mem_cons] at hr
    rcases hr with rfl | hr
    · rfl
    · exact ih _ r hr

theorem rowsFor_batchRows (clock : Nat → Nat) (u clientID kindID : String)
    (guids : List String) (index : Nat) :
    (rowsFor (u, clientID, kindID) (batchRows clock clientID kindID guids index)).length =
      guids.count u := by
  induction guids generalizing index with
  | nil => rfl
  | cons guid rest ih =>
    have h := ih (index + 1)
    have hk : ((⟨guid, clientID, kindID, 1, truncatedNow (clock index)⟩ : Receipt).key =
        (u, clientID, kindID)) ↔ guid = u := by
      simp [Receipt.key]
    rw [batchRows]
    unfold rowsFor at h ⊢
    rw [List.filter_cons]
    by_cases hg : guid = u
    · rw [if_pos (by simpa using hk.mpr hg), List.length_cons, h, hg]
      simp
    · rw [if_neg (by simpa using fun hh => hg (hk.mp hh)), h]
      have hne : ¬ (guid == u) = true := by simpa using hg
      simp [List.count_cons, hne]

/-- On the receipts table, `CreateReceipts` for a non-empty batch succeeds and applies the
rows of the batch in order. -/
theorem CreateReceipts_receiptsTable (clock : Nat → Nat) (userGUIDs : List String)
    (clientID kindID : String) (table : List Receipt) (h : userGUIDs ≠ []) :
    CreateReceipts receiptsTable clock userGUIDs clientID kindID table =
      (none, (batchRows clock clientID kindID userGUIDs 0).foldl upsertRow table) := by
  rw [CreateReceipts_eq]
  simp only [receiptsTable, decodeRows_batchArguments]
  cases hU : userGUIDs with
  | nil => exact absurd hU h
  | cons g rest =>
    have hl := batchRows_length clock clientID kindID (g :: rest) 0
    cases hR : batchRows clock clientID kindID (g :: rest) 0 with
    | nil => simp [batchRows] at hR
    | cons r rs =>
      rw [hR] at hl
      simp [hl]

theorem rowsFor_upsertRow_other (key : String × String × String) (table : List Receipt)
    (r : Receipt) (h : r.key ≠ key) :
    rowsFor key (upsertRow table r) = rowsFor key table := by
  induction table with
  | nil => simp [upsertRow, rowsFor, h]
  | cons x rest ih =>
    simp only [rowsFor] at ih ⊢
    unfold upsertRow
    by_cases hx : x.key = r.key
    · have hxk : x.key ≠ key := hx ▸ h
      have hxk2 : ({ x with Count := x.Count + 1 } : Receipt).key ≠ key := hxk
      simp [hx, List.filter_cons, h]
      exact hxk2
    · simp [hx, List.filter_cons, ih]

theorem rowsFor_upsertRow_absent (key : String × String × String) (table : List Receipt)
    (r : Receipt) (h : r.key = key) (h0 : rowsFor key table = []) :
    rowsFor key (upsertRow table r) = [r] := by
  induction table with
  | nil => simp [upsertRow, rowsFor, h]
  | cons x rest ih =>
    simp only [rowsFor] at ih h0 ⊢
    unfold upsertRow
    by_cases hx : x.key = key
    · simp [List.filter_cons, hx] at h0
    · have h1 : List.filter (fun r => decide (r.key = key)) rest = [] := by
        simpa [List.filter_cons, hx] using h0
      have hxr : x.key ≠ r.key := h ▸ hx
      simp [hxr, List.filter_cons, hx, ih h1]

theorem rowsFor_upsertRow_present (key : String × String × String) (table : List Receipt)
    (r x : Receipt) (h : r.key = key) (h1 : rowsFor key table = [x]) :
    rowsFor key (upsertRow table r) = [{ x with Count := x.Count + 1 }] := by
  induction table with
  | nil => simp [rowsFor] at h1
  | cons y rest ih =>
    simp only [rowsFor] at ih h1 ⊢
    unfold upsertRow
    by_cases hy : y.key = key
    · have hyr : y.key = r.key := hy.trans h.symm
      have hk : ({ y with Count := y.Count + 1 } : Receipt).key = key := hy
      simp only [List.filter_cons, hy, decide_True, if_true, List.cons.injEq] at h1
      obtain ⟨rfl, h3⟩ := h1
      rw [if_pos hyr, List.filter_cons, if_pos (by simpa using hk), h3]
    · have hyr : y.key ≠ r.key := h ▸ hy
      have h2 : List.filter (fun r => decide (r.key = key)) rest = [x] := by
        simpa [List.filter_cons, hy] using h1
      simp [hyr, List.filter_cons, hy, ih h2]

/-- Applying rows to a table that stores the key once adds to the stored count the number
of rows with the key. -/
theorem rowsFor_foldl_present (key : String × String × String) (rows table : List Receipt)
    (x : Receipt) (h1 : rowsFor key table = [x]) :
    rowsFor key (rows.foldl upsertRow table) =
      [{ x with Count := x.Count + (rowsFor key rows).length }] := by
  induction rows generalizing table x with
  | nil => simp [rowsFor] at h1 ⊢; exact h1
  | cons r rest ih =>
    simp only [List.foldl_cons]
    by_cases hr : r.key = key
    · have h2 := rowsFor_upsertRow_present key table r x hr h1
      rw [ih _ _ h2]
      simp only [rowsFor, List.filter_cons, hr, decide_True, if_true, List.length_cons]
      simp only [Nat.cast_add, Nat.cast_one, List.cons.injEq, and_true]
      congr 1
      omega
    · have h2 := rowsFor_upsertRow_other key table r hr
      rw [ih _ _ (h2.trans h1)]
      simp [rowsFor, List.filter_cons, hr]

/-- Applying rows of count 1, exactly one of which has the key, to a table that does not
store the key leaves one row for the key, with count 1. -/
theorem rowsFor_foldl_absent (key : String × String × String) (rows table : List Receipt)
    (h0 : rowsFor key table = []) (hc : ∀ r ∈ rows, r.Count = 1)
    (h1 : (rowsFor key rows).length = 1) :
    ∃ x, rowsFor key (rows.foldl upsertRow table) = [x] ∧ x.Count = 1 := by
  induction rows generalizing table with
  | nil => simp [rowsFor] at h1
  | cons r rest ih =>
    simp only [List.foldl_cons]
    by_cases hr : r.key = key
    · have h2 := rowsFor_upsertRow_absent key table r hr h0
      have h3 : (rowsFor key rest).length = 0 := by
        simpa [rowsFor, List.filter_cons, hr] using h1
      refine ⟨r, ?_, hc r (List.mem_cons_self _ _)⟩
      rw [rowsFor_foldl_present key rest _ r h2, h3]
      simp
    · have h2 := rowsFor_upsertRow_other key table r hr
      have h3 : (rowsFor key rest).length = 1 := by
        simpa [rowsFor, List.filter_cons, hr] using h1
      exact ih _ (h2.trans h0) (fun r hr => hc r (List.mem_cons_of_mem _ hr)) h3

theorem batchRows_guids (clock : Nat → Nat) (clientID kindID : String)
    (guids : List String) (index : Nat) :
    (batchRows clock clientID kindID guids index).map (fun r => r.UserGUID) = guids ∧
      ∀ r ∈ batchRows clock clientID kindID guids index,
        r.ClientID = clientID ∧ r.KindID = kindID ∧ r.Count = 1 := by
  induction guids generalizing index with
  | nil => simp [batchRows]
  | cons guid rest ih =>
    obtain ⟨h1, h2⟩ := ih (index + 1)
    refine ⟨by simp [batchRows, h1], ?_⟩
    intro r hr
    simp only [batchRows, List.mem_cons] at hr
    rcases hr with rfl | hr
    · exact ⟨rfl, rfl, rfl⟩
    · exact h2 r hr

/-- C7: whatever the GUIDs, the client and the kind, `CreateReceipts` performs the whole
batch as one statement: it makes exactly one call on the connection, an `Exec`, whose
statement has one placeholder group per GUID and whose arguments are the rows of the whole
batch, one row per GUID in the order of the list, each with the client, the kind and count
1; on the receipts table that one statement applies every row of a non-empty batch.  The
recording connection answers and changes the store as the connection it wraps. -/
theorem CreateReceipts_single_exec {σ : Type} (conn : ConnectionInterface σ)
    (clock : Nat → Nat) (userGUIDs : List String) (clientID kindID : String) (s : σ) :
    (∃ args rows,
        (CreateReceipts (recording conn) clock userGUIDs clientID kindID (s, [])).2.2 =
          [ConnCall.Exec
            ("INSERT INTO `receipts` (`user_guid`, `client_id`, `kind_id`, `count`, `created_at`) VALUES "
              ++ ",".intercalate (List.replicate userGUIDs.length "(?, ?, ?, ?, ?)")
              ++ " ON DUPLICATE KEY UPDATE `count`=`count`+1")
            args] ∧
        args.length = 5 * userGUIDs.length ∧
        decodeRows args = some rows ∧
        rows.map (fun r => r.UserGUID) = userGUIDs ∧
        (∀ r ∈ rows, r.ClientID = clientID ∧ r.KindID = kindID ∧ r.Count = 1) ∧
        (userGUIDs ≠ [] → ∀ table : List Receipt,
          CreateReceipts receiptsTable clock userGUIDs clientID kindID table =
            (none, rows.foldl upsertRow table))) ∧
      ((CreateReceipts (recording conn) clock userGUIDs clientID kindID (s, [])).2.2).length = 1 ∧
      (CreateReceipts (recording conn) clock userGUIDs clientID kindID (s, [])).1 =
        (CreateReceipts conn clock userGUIDs clientID kindID s).1 ∧
      (CreateReceipts (recording conn) clock userGUIDs clientID kindID (s, [])).2.1 =
        (CreateReceipts conn clock userGUIDs clientID kindID s).2 := by
  refine ⟨⟨batchArguments clock clientID kindID userGUIDs 0,
    batchRows clock clientID kindID userGUIDs 0, ?_, ?_, ?_, ?_, ?_, ?_⟩, ?_, ?_, ?_⟩
  · rw [CreateReceipts_eq]
    simp only [upsertStatement, placeholderGroups_eq_intercalate]
    rfl
  · exact batchArguments_length clock clientID kindID userGUIDs 0
  · exact decodeRows_batchArguments clock clientID kindID userGUIDs 0
  · exact (batchRows_guids clock clientID kindID userGUIDs 0).1
  · exact (batchRows_guids clock clientID kindID userGUIDs 0).2
  · intro hne table
    exact CreateReceipts_receiptsTable clock userGUIDs clientID kindID table hne
  · rw [CreateReceipts_eq]
    rfl
  · rw [CreateReceipts_eq, CreateReceipts_eq]
    rfl
  · rw [CreateReceipts_eq, CreateReceipts_eq]
    rfl

/-- Witness of C7: a batch of two GUIDs on the recording receipts table is one `Exec`, and
that statement stores the rows of both GUIDs. -/
theorem CreateReceipts_single_exec_witness :
    ((CreateReceipts (recording receiptsTable) (fun _ => 1500000000) ["user-1", "user-2"]
        "client" "kind" ([], [])).2.2).length = 1 ∧
      ∃ rows : List Receipt,
        rows.map (fun r => r.UserGUID) = ["user-1", "user-2"] ∧
        CreateReceipts receiptsTable (fun _ => 1500000000) ["user-1", "user-2"] "client" "kind"
          [] = (none, rows.foldl upsertRow []) := by
  obtain ⟨⟨_, rows, _, _, _, hg, _, ht⟩, hl, _⟩ :=
    CreateReceipts_single_exec receiptsTable (fun _ => 1500000000) ["user-1", "user-2"]
      "client" "kind" []
  exact ⟨hl, rows, hg, ht (by decide) []⟩

/-- C8: on the receipts table, when no row is stored for the key `(u, clientID, kindID)`,
two calls of `CreateReceipts` whose batches each contain `u` once both return no error and
leave exactly one row for the key, with count 2. -/
theorem CreateReceipts_twice_counts_two (clock1 clock2 : Nat → Nat)
    (guids1 guids2 : List String) (u clientID kindID : String) (table : List Receipt)
    (h0 : rowsFor (u, clientID, kindID) table = [])
    (h1 : guids1.count u = 1) (h2 : guids2.count u = 1) :
    (CreateReceipts receiptsTable clock1 guids1 clientID kindID table).1 = none ∧
      (CreateReceipts receiptsTable clock2 guids2 clientID kindID
        (CreateReceipts receiptsTable clock1 guids1 clientID kindID table).2).1 = none ∧
      ∃ row,
        rowsFor (u, clientID, kindID)
          (CreateReceipts receiptsTable clock2 guids2 clientID kindID
            (CreateReceipts receiptsTable clock1 guids1 clientID kindID table).2).2 = [row] ∧
        row.Count = 2 := by
  have n1 : guids1 ≠ [] := by
    intro h
    rw [h] at h1
    simp at h1
  have n2 : guids2 ≠ [] := by
    intro h
    rw [h] at h2
    simp at h2
  rw [CreateReceipts_receiptsTable clock1 guids1 clientID kindID table n1]
  rw [CreateReceipts_receiptsTable clock2 guids2 clientID kindID _ n2]
  obtain ⟨x, hx, hxc⟩ := rowsFor_foldl_absent (u, clientID, kindID)
    (batchRows clock1 clientID kindID guids1 0) table h0
    (batchRows_count clock1 clientID kindID guids1 0)
    ((rowsFor_batchRows clock1 u clientID kindID guids1 0).trans h1)
  refine ⟨rfl, rfl, { x with Count := x.Count + 1 }, ?_, ?_⟩
  · simp only []
    rw [rowsFor_foldl_present (u, clientID, kindID) (batchRows clock2 clientID kindID guids2 0)
      _ x hx, rowsFor_batchRows, h2]
    simp
  · simp [hxc]

/-- Witness of C8: the key of "user-1" sent twice, in batches with another user, to a table
that stores another user only. -/
theorem CreateReceipts_twice_counts_two_witness :
    (CreateReceipts receiptsTable (fun _ => 1500000000) ["user-1", "user-2"] "client" "kind"
        [⟨"user-3", "client", "kind", 4, 0⟩]).1 = none ∧
      (CreateReceipts receiptsTable (fun _ => 2500000000) ["user-0", "user-1"] "client" "kind"
        (CreateReceipts receiptsTable (fun _ => 1500000000) ["user-1", "user-2"] "client" "kind"
          [⟨"user-3", "client", "kind", 4, 0⟩]).2).1 = none ∧
      ∃ row,
        rowsFor ("user-1", "client", "kind")
          (CreateReceipts receiptsTable (fun _ => 2500000000) ["user-0", "user-1"] "client" "kind"
            (CreateReceipts receiptsTable (fun _ => 1500000000) ["user-1", "user-2"] "client"
              "kind" [⟨"user-3", "client", "kind", 4, 0⟩]).2).2 = [row] ∧
        row.Count = 2 :=
  CreateReceipts_twice_counts_two (fun _ => 1500000000) (fun _ => 2500000000)
    ["user-1", "user-2"] ["user-0", "user-1"] "user-1" "client" "kind"
    [⟨"user-3", "client", "kind", 4, 0⟩] (by decide) (by decide) (by decide)

set_option maxRecDepth 100000 in
/-- The statement, the arguments and the table of a batch of two, evaluated: one `Exec`
with two placeholder groups and ten arguments, and one row per GUID with count 1. -/
theorem CreateReceipts_two_guids :
    CreateReceipts (recording receiptsTable) (fun k => 1500000000 + k) ["user-1", "user-2"]
        "client" "kind" ([], []) =
      (none,
        [⟨"user-1", "client", "kind", 1, 1000000000⟩, ⟨"user-2", "client", "kind", 1, 1000000000⟩],
        [ConnCall.Exec
          "INSERT INTO `receipts` (`user_guid`, `client_id`, `kind_id`, `count`, `created_at`) VALUES (?, ?, ?, ?, ?),(?, ?, ?, ?, ?) ON DUPLICATE KEY UPDATE `count`=`count`+1"
          [SQLArg.str "user-1", SQLArg.str "client", SQLArg.str "kind", SQLArg.int 1,
            SQLArg.time 1000000000,
           SQLArg.str "user-2", SQLArg.str "client", SQLArg.str "kind", SQLArg.int 1,
            SQLArg.time 1000000000]]) := by
  decide

end models

namespace models

/-! ## The receipt counter: `Find` and `Update` -/

/-- `Find` on any connection, by the answer of `SelectOne`. -/
theorem Find_eq {σ : Type} (conn : ConnectionInterface σ) (userGUID clientID kindID : String)
    (s : σ) :
    Find conn userGUID clientID kindID s =
      match conn.SelectOne
          "SELECT * FROM  `receipts` WHERE `user_guid` = ? AND `client_id` = ? AND `kind_id` = ?"
          [SQLArg.str userGUID, SQLArg.str clientID, SQLArg.str kindID] s with
      | (.error DbError.ErrNoRows, s1) => ((⟨"", "", "", 0, 0⟩, some RepoError.ErrRecordNotFound), s1)
      | (.error (DbError.driver e), s1) =>
        ((⟨"", "", "", 0, 0⟩, some (RepoError.db (DbError.driver e))), s1)
      | (.ok receipt, s1) => ((receipt, none), s1) := by
  unfold Find
  cases conn.SelectOne
      "SELECT * FROM  `receipts` WHERE `user_guid` = ? AND `client_id` = ? AND `kind_id` = ?"
      [SQLArg.str userGUID, SQLArg.str clientID, SQLArg.str kindID] s with
  | mk r s1 =>
    cases r with
    | ok receipt => rfl
    | error err => cases err <;> simp

/-- `Find` on the receipts table, by the rows stored under the key. -/
theorem Find_receiptsTable (userGUID clientID kindID : String) (table : List Receipt) :
    Find receiptsTable userGUID clientID kindID table =
      match rowsFor (userGUID, clientID, kindID) table with
      | [] => ((⟨"", "", "", 0, 0⟩, some RepoError.ErrRecordNotFound), table)
      | row :: _ => ((row, none), table) := by
  rw [Find_eq]
  simp only [receiptsTable]
  cases rowsFor (userGUID, clientID, kindID) table <;> rfl

/-- C11: on the receipts table, `Find` fails with `ErrRecordNotFound` and returns the zero
receipt when no row is stored for `(userGUID, clientID, kindID)`, and returns the stored
row with no error when one is; either way the table is unchanged.  On any connection, an
answer `sql.ErrNoRows` of the select becomes `ErrRecordNotFound` with the zero receipt. -/
theorem Find_not_found_or_stored_row (userGUID clientID kindID : String)
    (table : List Receipt) :
    (rowsFor (userGUID, clientID, kindID) table = [] →
      Find receiptsTable userGUID clientID kindID table =
        ((⟨"", "", "", 0, 0⟩, some RepoError.ErrRecordNotFound), table)) ∧
    (∀ row, rowsFor (userGUID, clientID, kindID) table = [row] →
      Find receiptsTable userGUID clientID kindID table = ((row, none), table)) ∧
    (∀ {σ : Type} (conn : ConnectionInterface σ) (s s1 : σ),
      conn.SelectOne
          "SELECT * FROM  `receipts` WHERE `user_guid` = ? AND `client_id` = ? AND `kind_id` = ?"
          [SQLArg.str userGUID, SQLArg.str clientID, SQLArg.str kindID] s
        = (.error DbError.ErrNoRows, s1) →
      Find conn userGUID clientID kindID s =
        ((⟨"", "", "", 0, 0⟩, some RepoError.ErrRecordNotFound), s1)) := by
  refine ⟨?_, ?_, ?_⟩
  · intro h
    rw [Find_receiptsTable, h]
  · intro row h
    rw [Find_receiptsTable, h]
  · intro σ conn s s1 h
    rw [Find_eq, h]

/-- Witness of C11: a table with one row; the stored key is found, another key is not. -/
theorem Find_not_found_or_stored_row_witness :
    Find receiptsTable "user-2" "client" "kind" [⟨"user-1", "client", "kind", 3, 7⟩] =
        ((⟨"", "", "", 0, 0⟩, some RepoError.ErrRecordNotFound),
          [⟨"user-1", "client", "kind", 3, 7⟩]) ∧
      Find receiptsTable "user-1" "client" "kind" [⟨"user-1", "client", "kind", 3, 7⟩] =
        ((⟨"user-1", "client", "kind", 3, 7⟩, none), [⟨"user-1", "client", "kind", 3, 7⟩]) :=
  ⟨(Find_not_found_or_stored_row "user-2" "client" "kind"
      [⟨"user-1", "client", "kind", 3, 7⟩]).1 (by decide),
    (Find_not_found_or_stored_row "user-1" "client" "kind"
      [⟨"user-1", "client", "kind", 3, 7⟩]).2.1 ⟨"user-1", "client", "kind", 3, 7⟩ (by decide)⟩

/-- C12: on the receipts table, `Update` of a receipt for whose key no row is stored fails
with `ErrRecordNotFound` (the write touches no row and the read-back finds none), returns
the zero receipt and leaves the table unchanged. -/
theorem Update_not_found (receipt : Receipt) (table : List Receipt)
    (h : rowsFor (receipt.UserGUID, receipt.ClientID, receipt.KindID) table = []) :
    Update receiptsTable receipt table =
      ((⟨"", "", "", 0, 0⟩, some RepoError.ErrRecordNotFound), table) := by
  have hk : rowsFor receipt.key table = [] := h
  unfold Update
  have hu : receiptsTable.Update receipt table = (.ok 0, table) := by
    simp [receiptsTable, hk]
  rw [hu]
  simp only []
  rw [Find_receiptsTable, h]

/-- Witness of C12: updating the receipt of a key that is not stored. -/
theorem Update_not_found_witness :
    Update receiptsTable ⟨"user-2", "client", "kind", 9, 0⟩
        [⟨"user-1", "client", "kind", 3, 7⟩] =
      ((⟨"", "", "", 0, 0⟩, some RepoError.ErrRecordNotFound),
        [⟨"user-1", "client", "kind", 3, 7⟩]) :=
  Update_not_found ⟨"user-2", "client", "kind", 9, 0⟩ [⟨"user-1", "client", "kind", 3, 7⟩]
    (by decide)

/-- `Update` on any connection, by the answer of the write. -/
theorem Update_eq {σ : Type} (conn : ConnectionInterface σ) (receipt : Receipt) (s : σ) :
    Update conn receipt s =
      match conn.Update receipt s with
      | (.error err, s1) => ((receipt, some (RepoError.db err)), s1)
      | (.ok _, s1) => Find conn receipt.UserGUID receipt.ClientID receipt.KindID s1 := by
  unfold Update
  cases conn.Update receipt s with
  | mk r s1 => cases r <;> rfl

/-! ## The receipt counter: the count of a stored receipt -/

/-- C13, as stated, fails: after `Create` and an `Update` given count 0 on the empty table,
the stored receipt has count 0. -/
theorem receipts_count_counterexample :
    runCalls
        [RepoCall.Create 1500000000 ⟨"user-1", "client", "kind", 0, 0⟩,
         RepoCall.Update ⟨"user-1", "client", "kind", 0, 1000000000⟩] [] =
      [⟨"user-1", "client", "kind", 0, 1000000000⟩] := by
  decide

theorem upsertRow_count (table : List Receipt) (r : Receipt)
    (ht : ∀ row ∈ table, 1 ≤ row.Count) (hr : 1 ≤ r.Count) :
    ∀ row ∈ upsertRow table r, 1 ≤ row.Count := by
  induction table with
  | nil =>
    intro row hrow
    simp only [upsertRow, List.mem_singleton] at hrow
    rw [hrow]
    exact hr
  | cons x rest ih =>
    have hx : 1 ≤ x.Count := ht x (List.mem_cons_self _ _)
    have hrest : ∀ row ∈ rest, 1 ≤ row.Count := fun row h => ht row (List.mem_cons_of_mem _ h)
    intro row hrow
    unfold upsertRow at hrow
    by_cases hk : x.key = r.key
    · rw [if_pos hk, List.mem_cons] at hrow
      rcases hrow with rfl | hrow
      · show 1 ≤ x.Count + 1
        omega
      · exact hrest row hrow
    · rw [if_neg hk, List.mem_cons] at hrow
      rcases hrow with rfl | hrow
      · exact hx
      · exact ih hrest row hrow

theorem foldl_upsertRow_count (rows table : List Receipt)
    (ht : ∀ row ∈ table, 1 ≤ row.Count) (hr : ∀ r ∈ rows, 1 ≤ r.Count) :
    ∀ row ∈ rows.foldl upsertRow table, 1 ≤ row.Count := by
  induction rows generalizing table with
  | nil => exact ht
  | cons r rest ih =>
    simp only [List.foldl_cons]
    exact ih _ (upsertRow_count table r ht (hr r (List.mem_cons_self _ _)))
      (fun r h => hr r (List.mem_cons_of_mem _ h))

theorem Find_receiptsTable_table (userGUID clientID kindID : String) (table : List Receipt) :
    (Find receiptsTable userGUID clientID kindID table).2 = table := by
  rw [Find_receiptsTable]
  cases rowsFor (userGUID, clientID, kindID) table <;> rfl

theorem Update_receiptsTable_table (receipt : Receipt) (table : List Receipt) :
    (Update receiptsTable receipt table).2 =
      if rowsFor receipt.key table = [] then table
      else table.map fun x => if x.key = receipt.key then receipt else x := by
  rw [Update_eq]
  have hu : receiptsTable.Update receipt table =
      if rowsFor receipt.key table = [] then (.ok 0, table)
      else (.ok 1, table.map fun x => if x.key = receipt.key then receipt else x) := rfl
  rw [hu]
  by_cases h0 : rowsFor receipt.key table = []
  · rw [if_pos h0, if_pos h0]
    exact Find_receiptsTable_table _ _ _ _
  · rw [if_neg h0, if_neg h0]
    exact Find_receiptsTable_table _ _ _ _

theorem Create_receiptsTable_table (now : Nat) (receipt : Receipt) (table : List Receipt) :
    (Create receiptsTable now receipt table).2 =
      if rowsFor (receipt.UserGUID, receipt.ClientID, receipt.KindID) table = [] then
        table ++ [⟨receipt.UserGUID, receipt.ClientID, receipt.KindID, 1, truncatedNow now⟩]
      else table := by
  have hi : receiptsTable.Insert
      ⟨receipt.UserGUID, receipt.ClientID, receipt.KindID, 1, truncatedNow now⟩ table =
      if rowsFor (receipt.UserGUID, receipt.ClientID, receipt.KindID) table = [] then
        (none, table ++ [⟨receipt.UserGUID, receipt.ClientID, receipt.KindID, 1, truncatedNow now⟩])
      else (some (DbError.driver "Error 1062: Duplicate entry for key 'user_guid'"), table) := rfl
  unfold Create
  simp only []
  rw [hi]
  by_cases h0 : rowsFor (receipt.UserGUID, receipt.ClientID, receipt.KindID) table = []
  · rw [if_pos h0, if_pos h0]
  · rw [if_neg h0, if_neg h0]
    simp only []
    split <;> rfl

theorem CreateReceipts_receiptsTable_table (clock : Nat → Nat) (userGUIDs : List String)
    (clientID kindID : String) (table : List Receipt) :
    (CreateReceipts receiptsTable clock userGUIDs clientID kindID table).2 =
      if userGUIDs = [] then table
      else (batchRows clock clientID kindID userGUIDs 0).foldl upsertRow table := by
  by_cases h : userGUIDs = []
  · rw [if_pos h, h, CreateReceipts_eq]
    rfl
  · rw [if_neg h, CreateReceipts_receiptsTable clock userGUIDs clientID kindID table h]

/-- Every call of the repository keeps the counts at least 1, an `Update` provided it is
given a count of at least 1. -/
theorem RepoCall_run_count (call : RepoCall) (table : List Receipt)
    (ht : ∀ row ∈ table, 1 ≤ row.Count)
    (hc : updatesCountPositive [call] = true) :
    ∀ row ∈ call.run table, 1 ≤ row.Count := by
  cases call with
  | Create now receipt =>
    simp only [RepoCall.run]
    rw [Create_receiptsTable_table]
    intro row hrow
    split at hrow
    · rcases List.mem_append.mp hrow with h | h
      · exact ht row h
      · simp only [List.mem_singleton] at h
        subst h
        exact le_refl _
    · exact ht row hrow
  | CreateReceipts clock userGUIDs clientID kindID =>
    simp only [RepoCall.run]
    rw [CreateReceipts_receiptsTable_table]
    intro row hrow
    split at hrow
    · exact ht row hrow
    · exact foldl_upsertRow_count _ table ht
        (fun x hx => by rw [batchRows_count clock clientID kindID userGUIDs 0 x hx]) row hrow
  | Update receipt =>
    have hpos : 1 ≤ receipt.Count := by
      simpa [updatesCountPositive] using hc
    simp only [RepoCall.run]
    rw [Update_receiptsTable_table]
    intro row hrow
    split at hrow
    · exact ht row hrow
    · obtain ⟨x, hx, rfl⟩ := List.mem_map.mp hrow
      by_cases hk : x.key = receipt.key
      · rw [if_pos hk]
        exact hpos
      · rw [if_neg hk]
        exact ht x hx

/-- C13, amended: starting from the empty receipts table, after any sequence of `Create`,
`CreateReceipts` and `Update` calls in which every `Update` is given a receipt with count at
least 1, every stored receipt has count at least 1. -/
theorem receipts_count_at_least_one (calls : List RepoCall)
    (h : updatesCountPositive calls = true) :
    ∀ row ∈ runCalls calls [], 1 ≤ row.Count := by
  have gen : ∀ (calls : List RepoCall) (table : List Receipt),
      (∀ row ∈ table, 1 ≤ row.Count) → updatesCountPositive calls = true →
      ∀ row ∈ runCalls calls table, 1 ≤ row.Count := by
    intro calls
    induction calls with
    | nil => intro table ht _; exact ht
    | cons call rest ih =>
      intro table ht hc
      have h1 : updatesCountPositive [call] = true := by
        simp only [updatesCountPositive, List.all_cons, Bool.and_eq_true] at hc ⊢
        exact ⟨hc.1, by simp⟩
      have h2 : updatesCountPositive rest = true := by
        simp only [updatesCountPositive, List.all_cons, Bool.and_eq_true] at hc ⊢
        exact hc.2
      simp only [runCalls, List.foldl_cons]
      exact ih _ (RepoCall_run_count call table ht h1) h2
  exact gen calls [] (by simp) h

/-- Witness of amended C13: after a `Create`, a batch and an `Update` given count 5, every
stored receipt has count at least 1. -/
theorem receipts_count_at_least_one_witness :
    (runCalls
        [RepoCall.Create 1500000000 ⟨"user-1", "client", "kind", 0, 0⟩,
         RepoCall.CreateReceipts (fun _ => 2500000000) ["user-1", "user-2"] "client" "kind",
         RepoCall.Update ⟨"user-2", "client", "kind", 5, 0⟩] []).all
      (fun row => decide (1 ≤ row.Count)) = true :=
  List.all_eq_true.mpr fun row hrow =>
    decide_eq_true
      (receipts_count_at_least_one
        [RepoCall.Create 1500000000 ⟨"user-1", "client", "kind", 0, 0⟩,
         RepoCall.CreateReceipts (fun _ => 2500000000) ["user-1", "user-2"] "client" "kind",
         RepoCall.Update ⟨"user-2", "client", "kind", 5, 0⟩] (by decide) row hrow)

end models

namespace messages

open queue (Message)

/-! ## The messages repository: lemmas on the stored row -/

theorem stored_eq_none_iff (id : String) (table : List Message) :
    stored id table = none ↔ ∀ m ∈ table, m.ID ≠ id := by
  simp [stored, List.find?_eq_none]

theorem stored_id (id : String) (table : List Message) (m : Message)
    (h : stored id table = some m) : m.ID = id := by
  have := List.find?_some h
  simpa using this

theorem stored_mem (id : String) (table : List Message) (m : Message)
    (h : stored id table = some m) : m ∈ table :=
  List.mem_of_find?_eq_some h

theorem stored_append_new (id : String) (table : List Message) (m : Message)
    (h : stored id table = none) (hm : m.ID = id) :
    stored id (table ++ [m]) = some m := by
  unfold stored at h ⊢
  rw [List.find?_append, h]
  simp [hm]

theorem stored_map_replace (id : String) (table : List Message) (old new : Message)
    (h : stored id table = some old) (hn : new.ID = id) :
    stored id (table.map fun m => if m.ID = id then new else m) = some new := by
  induction table with
  | nil => simp [stored] at h
  | cons x rest ih =>
    unfold stored at h ih ⊢
    by_cases hx : x.ID = id
    · simp [List.find?_cons, hx, hn]
    · have h1 : List.find? (fun m => decide (m.ID = id)) rest = some old := by
        simpa [List.find?_cons, hx] using h
      rw [List.map_cons, if_neg hx, List.find?_cons]
      simp only [hx, decide_False]
      exact ih h1

theorem stored_of_mem_unique (table : List Message) (m : Message)
    (hu : uniqueIDs table) (hm : m ∈ table) : stored m.ID table = some m := by
  induction table with
  | nil => simp at hm
  | cons x rest ih =>
    unfold uniqueIDs at hu ih
    simp only [List.map_cons, List.nodup_cons, List.mem_map, not_exists, not_and] at hu
    unfold stored at ih ⊢
    rcases List.mem_cons.mp hm with rfl | hrest
    · simp [List.find?_cons]
    · have hne : ¬ x.ID = m.ID := fun h => hu.1 m hrest h.symm
      simp only [List.find?_cons, hne, decide_False]
      exact ih hu.2 hrest

/-- The table after `Upsert`, and what it returns, by whether the ID is stored. -/
theorem Upsert_eq (now : Nat) (message : Message) (table : List Message) :
    Upsert now message table =
      match stored message.ID table with
      | none =>
        (.ok ⟨message.ID, message.CampaignID, message.Status, now⟩,
          table ++ [⟨message.ID, message.CampaignID, message.Status, now⟩])
      | some _ =>
        (.ok ⟨message.ID, message.CampaignID, message.Status, now⟩,
          table.map fun m =>
            if m.ID = message.ID then ⟨message.ID, message.CampaignID, message.Status, now⟩
            else m) := by
  unfold Upsert Create
  cases h : stored message.ID table <;> simp [h]

theorem stored_Upsert (now : Nat) (message : Message) (table : List Message) :
    stored message.ID (Upsert now message table).2 =
      some ⟨message.ID, message.CampaignID, message.Status, now⟩ := by
  rw [Upsert_eq]
  cases h : stored message.ID table with
  | none => exact stored_append_new _ _ _ h rfl
  | some old => exact stored_map_replace _ _ old _ h rfl

/-! ## The messages repository: the claims -/

/-- C15: `Upsert` adds a row when no row is stored under the message ID and rewrites the
stored row otherwise (the number of rows is then unchanged); in both cases it succeeds, and
a following `FindByID` returns the ID, campaign and status given, with `UpdatedAt` the time
of the write whatever `UpdatedAt` the caller supplied. -/
theorem Upsert_inserts_or_updates (quote : String → String) (now : Nat) (message : Message)
    (table : List Message) :
    (stored message.ID table = none →
      (Upsert now message table).2 =
        table ++ [⟨message.ID, message.CampaignID, message.Status, now⟩]) ∧
    (∀ old, stored message.ID table = some old →
      (Upsert now message table).2.length = table.length ∧
      (Upsert now message table).2 =
        table.map fun m =>
          if m.ID = message.ID then ⟨message.ID, message.CampaignID, message.Status, now⟩
          else m) ∧
    (Upsert now message table).1 = .ok ⟨message.ID, message.CampaignID, message.Status, now⟩ ∧
    FindByID quote message.ID (Upsert now message table).2 =
      .ok ⟨message.ID, message.CampaignID, message.Status, now⟩ := by
  refine ⟨?_, ?_, ?_, ?_⟩
  · intro h
    rw [Upsert_eq, h]
  · intro old h
    rw [Upsert_eq, h]
    simp
  · rw [Upsert_eq]
    cases stored message.ID table <;> rfl
  · unfold FindByID
    rw [stored_Upsert]

/-- Witness of C15 on the test "inserts a new record": the caller supplies an `UpdatedAt` a
hundred hours ahead; the row found carries the time of the write. -/
theorem Upsert_inserts_or_updates_witness :
    FindByID (Quote noneAboveLatin1) "message-id-123"
        (Upsert 200 ⟨"message-id-123", "some-campaign-id", "delivered", 360000⟩ []).2 =
      .ok ⟨"message-id-123", "some-campaign-id", "delivered", 200⟩ :=
  (Upsert_inserts_or_updates (Quote noneAboveLatin1) 200
    ⟨"message-id-123", "some-campaign-id", "delivered", 360000⟩ []).2.2.2

theorem uniqueIDs_filter (p : Message → Bool) (table : List Message) (hu : uniqueIDs table) :
    uniqueIDs (table.filter p) := by
  unfold uniqueIDs at hu ⊢
  exact hu.sublist ((List.filter_sublist table).map _)

/-- C16: `DeleteBefore` keeps exactly the rows whose `updatedAt` is not earlier than the
cutoff and returns the number of rows it removed, which is 0 (and the table unchanged) when
no row is older than the cutoff; with IDs unique, every message that is not older than the
cutoff is still found under its ID, and every message older than the cutoff is no longer
found. -/
theorem DeleteBefore_purges_older (quote : String → String) (cutoff : Nat)
    (table : List Message) :
    (∀ m, m ∈ (DeleteBefore cutoff table).2 ↔ m ∈ table ∧ ¬ m.UpdatedAt < cutoff) ∧
    (DeleteBefore cutoff table).1 = table.countP (fun m => decide (m.UpdatedAt < cutoff)) ∧
    (DeleteBefore cutoff table).1 + (DeleteBefore cutoff table).2.length = table.length ∧
    ((∀ m ∈ table, ¬ m.UpdatedAt < cutoff) →
      (DeleteBefore cutoff table).1 = 0 ∧ (DeleteBefore cutoff table).2 = table) ∧
    (uniqueIDs table → ∀ m ∈ table, ¬ m.UpdatedAt < cutoff →
      FindByID quote m.ID (DeleteBefore cutoff table).2 = .ok m) ∧
    (uniqueIDs table → ∀ m ∈ table, m.UpdatedAt < cutoff →
      FindByID quote m.ID (DeleteBefore cutoff table).2 =
        .error (RepoError.NotFoundError (notFoundMessage quote m.ID))) := by
  refine ⟨?_, ?_, ?_, ?_, ?_, ?_⟩
  · intro m
    simp [DeleteBefore]
  · simp [DeleteBefore, List.countP_eq_length_filter]
  · simp only [DeleteBefore]
    have h := List.length_eq_countP_add_countP (fun m : Message => decide (m.UpdatedAt < cutoff))
      table
    simp only [List.countP_eq_length_filter] at h
    have e : (fun m : Message => !decide (m.UpdatedAt < cutoff)) =
        fun m => decide ¬ (decide (m.UpdatedAt < cutoff) = true) := by
      funext m
      by_cases hm : m.UpdatedAt < cutoff <;> simp [hm]
    rw [e]
    omega
  · intro h
    constructor
    · simp only [DeleteBefore]
      rw [List.length_eq_zero, List.filter_eq_nil_iff]
      intro m hm
      simpa using h m hm
    · simp only [DeleteBefore]
      rw [List.filter_eq_self]
      intro m hm
      simpa using h m hm
  · intro hu m hm hnew
    have hmem : m ∈ (DeleteBefore cutoff table).2 := by
      simp [DeleteBefore, hm, hnew]
    have hu2 : uniqueIDs (DeleteBefore cutoff table).2 := uniqueIDs_filter _ table hu
    unfold FindByID
    rw [stored_of_mem_unique _ m hu2 hmem]
  · intro hu m hm hold
    have hnone : stored m.ID (DeleteBefore cutoff table).2 = none := by
      rw [stored_eq_none_iff]
      intro x hx hid
      have hx2 : x ∈ table ∧ ¬ x.UpdatedAt < cutoff := by
        simpa [DeleteBefore] using hx
      have hs1 := stored_of_mem_unique table x hu hx2.1
      have hs2 := stored_of_mem_unique table m hu hm
      rw [hid, hs2] at hs1
      have hxm : m = x := Option.some.inj hs1
      exact hx2.2 (hxm ▸ hold)
    unfold FindByID
    rw [hnone]

/-- Witness of C16 on the two tests of `DeleteBefore`: a message written at time 100 is
deleted with cutoff 3700 and kept (and found) with cutoff 0. -/
theorem DeleteBefore_purges_older_witness :
    (DeleteBefore 3700 [⟨"message-id-123", "some-campaign-id", "delivered", 100⟩]).1 = 1 ∧
      (DeleteBefore 0 [⟨"message-id-123", "some-campaign-id", "delivered", 100⟩]).1 = 0 ∧
      FindByID (Quote noneAboveLatin1) "message-id-123"
          (DeleteBefore 0 [⟨"message-id-123", "some-campaign-id", "delivered", 100⟩]).2 =
        .ok ⟨"message-id-123", "some-campaign-id", "delivered", 100⟩ :=
  ⟨(DeleteBefore_purges_older (Quote noneAboveLatin1) 3700
      [⟨"message-id-123", "some-campaign-id", "delivered", 100⟩]).2.1.trans (by decide),
    ((DeleteBefore_purges_older (Quote noneAboveLatin1) 0
      [⟨"message-id-123", "some-campaign-id", "delivered", 100⟩]).2.2.2.1 (by decide)).1,
    (DeleteBefore_purges_older (Quote noneAboveLatin1) 0
      [⟨"message-id-123", "some-campaign-id", "delivered", 100⟩]).2.2.2.2.1 (by decide)
      ⟨"message-id-123", "some-campaign-id", "delivered", 100⟩ (by decide) (by decide)⟩

/-- A rune that `%q` does not escape is rendered as itself. -/
theorem escapedRune_plain (printable : Char → Bool) (c : Char)
    (h : 32 ≤ c.toNat ∧ c.toNat ≤ 126 ∧ c.toNat ≠ 34 ∧ c.toNat ≠ 92) :
    escapedRune printable c = [c] := by
  have h1 : ¬ (c.toNat = 34 ∨ c.toNat = 92) := fun hh => hh.elim h.2.2.1 h.2.2.2
  have h2 : IsPrint printable c = true := by
    unfold IsPrint
    rw [if_pos (by omega), if_pos ⟨h.1, h.2.1⟩]
  unfold escapedRune
  rw [if_neg h1, if_pos h2]

theorem flatMap_escapedRune_plain (printable : Char → Bool) (cs : List Char)
    (h : ∀ c ∈ cs, 32 ≤ c.toNat ∧ c.toNat ≤ 126 ∧ c.toNat ≠ 34 ∧ c.toNat ≠ 92) :
    cs.flatMap (escapedRune printable) = cs := by
  induction cs with
  | nil => rfl
  | cons c rest ih =>
    rw [List.flatMap_cons, escapedRune_plain printable c (h c (List.mem_cons_self _ _)),
      ih fun x hx => h x (List.mem_cons_of_mem _ hx)]
    rfl

/-- The rendering of `%q` of an ID in which nothing needs escaping is the ID between double
quotes. -/
theorem Quote_plainID (printable : Char → Bool) (id : String) (h : plainID id = true) :
    Quote printable id = "\"" ++ id ++ "\"" := by
  have hall : ∀ c ∈ id.data, 32 ≤ c.toNat ∧ c.toNat ≤ 126 ∧ c.toNat ≠ 34 ∧ c.toNat ≠ 92 := by
    intro c hc
    have := List.all_eq_true.mp h c hc
    simpa using this
  apply String.ext
  simp only [Quote, String.data_append]
  rw [flatMap_escapedRune_plain printable id.data hall]

/-- C17: when `Create` succeeds, a following `FindByID` of the ID returns exactly the message
`Create` returned; and for an ID under which no message is stored, `FindByID` fails with the
not-found error whose message is "Message with ID ", the ID rendered by `%q`, and " could
not be found": the ID between double quotes, with Go's escapes, which for an ID that needs
no escape reads `Message with ID "<id>" could not be found`. -/
theorem FindByID_after_Create_and_missing (printable : Char → Bool) :
    (∀ (quote : String → String) (now : Nat) (message created : Message)
        (table : List Message),
      (Create now message table).1 = .ok created →
      FindByID quote created.ID (Create now message table).2 = .ok created) ∧
    (∀ (id : String) (table : List Message), (∀ m ∈ table, m.ID ≠ id) →
      FindByID (Quote printable) id table =
        .error (RepoError.NotFoundError
          ("Message with ID " ++ Quote printable id ++ " could not be found"))) ∧
    (∀ (id : String) (table : List Message), (∀ m ∈ table, m.ID ≠ id) →
      plainID id = true →
      FindByID (Quote printable) id table =
        .error (RepoError.NotFoundError
          ("Message with ID \"" ++ id ++ "\" could not be found"))) := by
  refine ⟨?_, ?_, ?_⟩
  · intro quote now message created table h
    unfold Create at h ⊢
    cases hs : stored message.ID table with
    | some old => simp [hs] at h
    | none =>
      simp only [hs] at h ⊢
      have hc : created = ⟨message.ID, message.CampaignID, message.Status, now⟩ := by
        injection h with h
        exact h.symm
      subst hc
      have hst := stored_append_new message.ID table
        ⟨message.ID, message.CampaignID, message.Status, now⟩ hs rfl
      unfold FindByID
      simp only [hst]
  · intro id table h
    unfold FindByID
    rw [(stored_eq_none_iff id table).mpr h]
    rfl
  · intro id table h hplain
    unfold FindByID
    rw [(stored_eq_none_iff id table).mpr h]
    have e : "Message with ID " ++ "\"" = "Message with ID \"" := by decide
    have e2 : "\"" ++ " could not be found" = "\" could not be found" := by decide
    simp only [notFoundMessage]
    rw [Quote_plainID printable id hplain]
    rw [← String.append_assoc, ← String.append_assoc, e, String.append_assoc _ "\"", e2]

/-- Witness of C17 on the tests of `FindByID`: the created message is found, the ID
"missing-id" is reported with the message of the test, and an ID with a double quote is
reported with the quote escaped. -/
theorem FindByID_after_Create_and_missing_witness :
    FindByID (Quote noneAboveLatin1) "message-id-123"
        (Create 100 ⟨"message-id-123", "some-campaign-id", "delivered", 0⟩ []).2 =
        .ok ⟨"message-id-123", "some-campaign-id", "delivered", 100⟩ ∧
      FindByID (Quote noneAboveLatin1) "missing-id" [] =
        .error (RepoError.NotFoundError "Message with ID \"missing-id\" could not be found") ∧
      FindByID (Quote noneAboveLatin1) "a\"b" [] =
        .error (RepoError.NotFoundError "Message with ID \"a\\\"b\" could not be found") :=
  ⟨(FindByID_after_Create_and_missing noneAboveLatin1).1 (Quote noneAboveLatin1) 100
      ⟨"message-id-123", "some-campaign-id", "delivered", 0⟩
      ⟨"message-id-123", "some-campaign-id", "delivered", 100⟩ [] rfl,
    ((FindByID_after_Create_and_missing noneAboveLatin1).2.2 "missing-id" [] (by simp)
      (by decide)).trans (by rfl),
    ((FindByID_after_Create_and_missing noneAboveLatin1).2.1 "a\"b" [] (by simp)).trans
      (by rfl)⟩

/-- An ID with a double quote, a backslash and a line feed is reported with Go's escapes. -/
theorem FindByID_missing_escaped :
    FindByID (Quote noneAboveLatin1) "a\"b\\c\n" [] =
      .error (RepoError.NotFoundError
        "Message with ID \"a\\\"b\\\\c\\n\" could not be found") := by
  rfl

end messages

namespace collections

open queue (Message)

/-! ## The campaign status aggregator -/

/-- A successful `Get` returns the tallies of the rows of the campaign, of which there is at
least one. -/
theorem Get_ok (startTime : Nat) (campaignID : String) (table : List Message)
    (cs : CampaignStatus) (h : Get startTime campaignID table = .ok cs) :
    (table.filter fun m => m.CampaignID = campaignID) ≠ [] ∧
    cs =
      { CampaignID := campaignID
        Status := overallStatus
          (countStatus ["delivered"] (table.filter fun m => m.CampaignID = campaignID))
          (countStatus ["failed"] (table.filter fun m => m.CampaignID = campaignID))
          (countStatus ["retrying"] (table.filter fun m => m.CampaignID = campaignID))
          (countStatus ["queued", "delivering"] (table.filter fun m => m.CampaignID = campaignID))
        TotalMessages := (table.filter fun m => m.CampaignID = campaignID).length
        SentMessages := countStatus ["delivered"] (table.filter fun m => m.CampaignID = campaignID)
        RetryMessages := countStatus ["retrying"] (table.filter fun m => m.CampaignID = campaignID)
        FailedMessages := countStatus ["failed"] (table.filter fun m => m.CampaignID = campaignID)
        QueuedMessages :=
          countStatus ["queued", "delivering"] (table.filter fun m => m.CampaignID = campaignID)
        StartTime := startTime
        CompletedTime :=
          if countStatus ["retrying"] (table.filter fun m => m.CampaignID = campaignID) = 0 ∧
              countStatus ["queued", "delivering"]
                (table.filter fun m => m.CampaignID = campaignID) = 0 then
            some (latestUpdate (table.filter fun m => m.CampaignID = campaignID))
          else none } := by
  unfold Get at h
  cases hf : (table.filter fun m => m.CampaignID = campaignID) with
  | nil => simp [hf] at h
  | cons row rest =>
    simp only [hf] at h
    refine ⟨by simp, ?_⟩
    injection h with h
    exact h.symm

/-- `Get` fails exactly when no row references the campaign. -/
theorem Get_not_found_iff (startTime : Nat) (campaignID : String) (table : List Message) :
    Get startTime campaignID table = .error GetError.NotFound ↔
      ∀ m ∈ table, m.CampaignID ≠ campaignID := by
  unfold Get
  cases hf : (table.filter fun m => m.CampaignID = campaignID) with
  | nil =>
    simp only [true_iff]
    intro m hm hc
    have : m ∈ (table.filter fun m => m.CampaignID = campaignID) := by
      simp [hm, hc]
    rw [hf] at this
    simp at this
  | cons row rest =>
    have hr : row ∈ (table.filter fun m => m.CampaignID = campaignID) := by
      rw [hf]
      exact List.mem_cons_self _ _
    simp only [List.mem_filter, decide_eq_true_eq] at hr
    constructor
    · intro h
      exact absurd h (by simp)
    · intro h
      exact absurd hr.2 (h row hr.1)

theorem countStatus_cons (statuses : List String) (m : Message) (rest : List Message) :
    countStatus statuses (m :: rest) =
      countStatus statuses rest + if m.Status ∈ statuses then 1 else 0 := by
  simp [countStatus, List.countP_cons]

theorem countStatus_sum (rows : List Message) (h : ∀ m ∈ rows, m.Status ∈ messageStates) :
    countStatus ["delivered"] rows + countStatus ["failed"] rows + countStatus ["retrying"] rows
      + countStatus ["queued", "delivering"] rows = rows.length := by
  induction rows with
  | nil => rfl
  | cons m rest ih =>
    have hrest := ih fun x hx => h x (List.mem_cons_of_mem _ hx)
    have hm := h m (List.mem_cons_self _ _)
    have hone : (if m.Status ∈ ["delivered"] then 1 else 0)
        + (if m.Status ∈ ["failed"] then 1 else 0)
        + (if m.Status ∈ ["retrying"] then 1 else 0)
        + (if m.Status ∈ ["queued", "delivering"] then 1 else 0) = 1 := by
      simp only [messageStates, List.mem_cons, List.mem_singleton, List.not_mem_nil,
        or_false] at hm
      rcases hm with hm | hm | hm | hm | hm <;> rw [hm] <;> decide
    rw [countStatus_cons, countStatus_cons, countStatus_cons, countStatus_cons,
      List.length_cons]
    omega

theorem countStatus_pos (statuses : List String) (rows : List Message) :
    0 < countStatus statuses rows ↔ ∃ m ∈ rows, m.Status ∈ statuses := by
  simp [countStatus, List.countP_pos_iff]

/-- C18: for rows in the message states of section 4.2, the status `Get` computes for a
campaign satisfies sent + failed + retry + queued = total, the total being the number of
message rows of that campaign. -/
theorem Get_tallies_sum_to_total (startTime : Nat) (campaignID : String)
    (table : List Message) (cs : CampaignStatus)
    (h : Get startTime campaignID table = .ok cs)
    (hs : ∀ m ∈ table, m.CampaignID = campaignID → m.Status ∈ messageStates) :
    cs.SentMessages + cs.FailedMessages + cs.RetryMessages + cs.QueuedMessages
        = cs.TotalMessages ∧
      cs.TotalMessages = table.countP (fun m => decide (m.CampaignID = campaignID)) := by
  obtain ⟨-, hcs⟩ := Get_ok startTime campaignID table cs h
  rw [hcs]
  refine ⟨?_, ?_⟩
  · apply countStatus_sum
    intro m hm
    simp only [List.mem_filter, decide_eq_true_eq] at hm
    exact hs m hm.1 hm.2
  · simp [List.countP_eq_length_filter]

/-- Witness of C18 on the campaign of the test "gets the status of an existing campaign":
six sent and two failed messages make the total of eight. -/
theorem Get_tallies_sum_to_total_witness :
    testStatus.SentMessages + testStatus.FailedMessages + testStatus.RetryMessages
        + testStatus.QueuedMessages = testStatus.TotalMessages ∧
      testStatus.TotalMessages =
        testRows.countP (fun m => decide (m.CampaignID = "some-campaign-id")) :=
  Get_tallies_sum_to_total 10 "some-campaign-id" testRows testStatus rfl (by decide)

/-- C19: the overall status `Get` derives is "sending" if any message of the campaign is
queued or retrying (a queued or retry tally is positive); otherwise "failed" if the failed
tally is positive and the sent tally is zero; otherwise "completed"; so it is exactly one of
the three. -/
theorem Get_overall_status (startTime : Nat) (campaignID : String)
    (table : List Message) (cs : CampaignStatus)
    (h : Get startTime campaignID table = .ok cs) :
    cs.Status =
        (if 0 < cs.QueuedMessages ∨ 0 < cs.RetryMessages then "sending"
         else if 0 < cs.FailedMessages ∧ cs.SentMessages = 0 then "failed"
         else "completed") ∧
      ((∃ m ∈ table, m.CampaignID = campaignID ∧ (m.Status = "queued" ∨ m.Status = "retrying")) →
        cs.Status = "sending") ∧
      ((cs.Status = "sending" ∧ cs.Status ≠ "failed" ∧ cs.Status ≠ "completed") ∨
        (cs.Status ≠ "sending" ∧ cs.Status = "failed" ∧ cs.Status ≠ "completed") ∨
        (cs.Status ≠ "sending" ∧ cs.Status ≠ "failed" ∧ cs.Status = "completed")) := by
  obtain ⟨-, hcs⟩ := Get_ok startTime campaignID table cs h
  have hstatus : cs.Status =
      (if 0 < cs.QueuedMessages ∨ 0 < cs.RetryMessages then "sending"
       else if 0 < cs.FailedMessages ∧ cs.SentMessages = 0 then "failed"
       else "completed") := by
    rw [hcs]
    simp only [overallStatus]
    by_cases hp : 0 < countStatus ["queued", "delivering"]
        (table.filter fun m => m.CampaignID = campaignID) ∨
        0 < countStatus ["retrying"] (table.filter fun m => m.CampaignID = campaignID)
    · have hnz : ¬ (countStatus ["queued", "delivering"]
          (table.filter fun m => m.CampaignID = campaignID) = 0 ∧
          countStatus ["retrying"] (table.filter fun m => m.CampaignID = campaignID) = 0) := by
        omega
      rw [if_pos hp, if_pos hp, if_neg (fun hh => hnz ⟨hh.2.1, hh.2.2.1⟩)]
    · have hz : countStatus ["queued", "delivering"]
          (table.filter fun m => m.CampaignID = campaignID) = 0 ∧
          countStatus ["retrying"] (table.filter fun m => m.CampaignID = campaignID) = 0 := by
        omega
      rw [if_neg hp, if_neg hp]
      by_cases hfail : 0 < countStatus ["failed"]
          (table.filter fun m => m.CampaignID = campaignID) ∧
          countStatus ["delivered"] (table.filter fun m => m.CampaignID = campaignID) = 0
      · rw [if_pos hfail, if_pos ⟨hfail.1, hz.1, hz.2, hfail.2⟩]
      · rw [if_neg hfail, if_neg (fun hh => hfail ⟨hh.1, hh.2.2.2⟩)]
  refine ⟨hstatus, ?_, ?_⟩
  · rintro ⟨m, hm, hc, hst⟩
    have hmem : m ∈ (table.filter fun m => m.CampaignID = campaignID) := by
      simp [hm, hc]
    have hpos : 0 < cs.QueuedMessages ∨ 0 < cs.RetryMessages := by
      rw [hcs]
      rcases hst with hq | hr
      · exact Or.inl ((countStatus_pos _ _).mpr ⟨m, hmem, by simp [hq]⟩)
      · exact Or.inr ((countStatus_pos _ _).mpr ⟨m, hmem, by simp [hr]⟩)
    rw [hstatus, if_pos hpos]
  · rw [hstatus]
    split
    · exact Or.inl ⟨rfl, by decide, by decide⟩
    · split
      · exact Or.inr (Or.inl ⟨by decide, rfl, by decide⟩)
      · exact Or.inr (Or.inr ⟨by decide, by decide, rfl⟩)

/-- Witness of C19: a campaign with one delivered and one queued message is sending. -/
theorem Get_overall_status_witness : sendingStatus.Status = "sending" :=
  (Get_overall_status 10 "some-campaign-id" sendingRows sendingStatus rfl).2.1
    ⟨⟨"m2", "some-campaign-id", "queued", 10⟩, by decide, rfl, Or.inl rfl⟩

/-- C20: in the status `Get` computes, the completed time is set if and only if the retry
and queued tallies are both zero; it is absent while any message of the campaign is queued,
being delivered or retrying, and when set it is the latest `updatedAt` of the campaign. -/
theorem Get_completed_time (startTime : Nat) (campaignID : String)
    (table : List Message) (cs : CampaignStatus)
    (h : Get startTime campaignID table = .ok cs) :
    (cs.CompletedTime.isSome = true ↔ cs.RetryMessages = 0 ∧ cs.QueuedMessages = 0) ∧
      ((∃ m ∈ table, m.CampaignID = campaignID ∧
          (m.Status = "queued" ∨ m.Status = "delivering" ∨ m.Status = "retrying")) →
        cs.CompletedTime = none) ∧
      (cs.RetryMessages = 0 ∧ cs.QueuedMessages = 0 →
        cs.CompletedTime =
          some (latestUpdate (table.filter fun m => m.CampaignID = campaignID))) := by
  obtain ⟨-, hcs⟩ := Get_ok startTime campaignID table cs h
  rw [hcs]
  simp only []
  refine ⟨?_, ?_, ?_⟩
  · split <;> simp_all
  · rintro ⟨m, hm, hc, hst⟩
    have hmem : m ∈ (table.filter fun m => m.CampaignID = campaignID) := by
      simp [hm, hc]
    have hpos : 0 < countStatus ["queued", "delivering"]
        (table.filter fun m => m.CampaignID = campaignID) ∨
        0 < countStatus ["retrying"] (table.filter fun m => m.CampaignID = campaignID) := by
      rcases hst with hq | hd | hr
      · exact Or.inl ((countStatus_pos _ _).mpr ⟨m, hmem, by simp [hq]⟩)
      · exact Or.inl ((countStatus_pos _ _).mpr ⟨m, hmem, by simp [hd]⟩)
      · exact Or.inr ((countStatus_pos _ _).mpr ⟨m, hmem, by simp [hr]⟩)
    rw [if_neg (by omega)]
  · intro hz
    rw [if_pos hz]

/-- Witness of C20 on the campaign of the test "gets the status of an existing campaign":
nothing is queued or in retry, so the completed time is set, to the latest update. -/
theorem Get_completed_time_witness :
    testStatus.CompletedTime =
      some (latestUpdate (testRows.filter fun m => m.CampaignID = "some-campaign-id")) :=
  (Get_completed_time 10 "some-campaign-id" testRows testStatus rfl).2.2 ⟨rfl, rfl⟩

end collections

namespace models

/-! ## The receipt counter: behaviour of `CreateReceipts`, `Create` and `Update` -/

set_option maxRecDepth 100000 in
/-- The batched upsert without a row: the VALUES clause is empty. -/
theorem upsertStatement_zero :
    upsertStatement 0 =
      "INSERT INTO `receipts` (`user_guid`, `client_id`, `kind_id`, `count`, `created_at`) VALUES  ON DUPLICATE KEY UPDATE `count`=`count`+1" := by
  decide

/-- C22: for the empty list of GUIDs `CreateReceipts` still makes exactly one call on the
connection, an `Exec` of the statement with an empty VALUES clause and with no arguments,
and returns the error (and leaves the store) that `Exec` returns. -/
theorem CreateReceipts_empty {σ : Type} (conn : ConnectionInterface σ) (clock : Nat → Nat)
    (clientID kindID : String) (s : σ) :
    (CreateReceipts (recording conn) clock [] clientID kindID (s, [])).2.2 =
        [ConnCall.Exec
          "INSERT INTO `receipts` (`user_guid`, `client_id`, `kind_id`, `count`, `created_at`) VALUES  ON DUPLICATE KEY UPDATE `count`=`count`+1"
          []] ∧
      CreateReceipts conn clock [] clientID kindID s =
        conn.Exec
          "INSERT INTO `receipts` (`user_guid`, `client_id`, `kind_id`, `count`, `created_at`) VALUES  ON DUPLICATE KEY UPDATE `count`=`count`+1"
          [] s := by
  refine ⟨?_, ?_⟩
  · rw [CreateReceipts_eq]
    simp only [List.length_nil, upsertStatement_zero, batchArguments]
    rfl
  · rw [CreateReceipts_eq]
    simp only [List.length_nil, upsertStatement_zero, batchArguments]

/-- C23: a successful `Create` returns the caller's receipt with `Count` 1 and `CreatedAt`
the clock truncated to the second, whatever `Count` and `CreatedAt` the caller supplied, and
with `UserGUID`, `ClientID` and `KindID` unchanged; that receipt is the one inserted. -/
theorem Create_success_stamps {σ : Type} (conn : ConnectionInterface σ) (now : Nat)
    (receipt : Receipt) (s : σ) (h : (Create conn now receipt s).1.2 = none) :
    (Create conn now receipt s).1.1 =
        ⟨receipt.UserGUID, receipt.ClientID, receipt.KindID, 1, now - now % 1000000000⟩ ∧
      (Create (recording conn) now receipt (s, [])).2.2 =
        [ConnCall.Insert
          ⟨receipt.UserGUID, receipt.ClientID, receipt.KindID, 1, now - now % 1000000000⟩] := by
  have ht : truncatedNow now = now - now % 1000000000 := by
    simp [truncatedNow, Truncate, Second]
  unfold Create at h ⊢
  simp only [ht] at h ⊢
  constructor
  · cases hI : conn.Insert
        ⟨receipt.UserGUID, receipt.ClientID, receipt.KindID, 1, now - now % 1000000000⟩ s with
    | mk r s1 =>
      simp only [hI] at h ⊢
      cases r with
      | none => rfl
      | some err =>
        simp only [] at h
        split at h <;> simp at h
  · simp only [recording]
    cases hI : conn.Insert
        ⟨receipt.UserGUID, receipt.ClientID, receipt.KindID, 1, now - now % 1000000000⟩ s with
    | mk r s1 =>
      cases r with
      | none => rfl
      | some err =>
        simp only []
        split <;> rfl

/-- Witness of C23 on the receipts table: the caller supplies count 5 and a time; the
receipt returned has count 1 and the truncated clock. -/
theorem Create_success_stamps_witness :
    (Create receiptsTable 1500000000 ⟨"user-1", "client", "kind", 5, 77⟩ []).1.1 =
      ⟨"user-1", "client", "kind", 1, 1000000000⟩ :=
  (Create_success_stamps receiptsTable 1500000000 ⟨"user-1", "client", "kind", 5, 77⟩ []
    (by decide)).1

/-- C24: when `conn.Update` fails, `Update` returns the receipt it was given together with
that error and makes no other call on the connection; when `conn.Update` succeeds, the
result of `Update` is the result of `Find` for the key of the receipt, run on the store
the write left. -/
theorem Update_error_or_reread {σ : Type} (conn : ConnectionInterface σ) (receipt : Receipt)
    (s : σ) :
    (∀ err s1, conn.Update receipt s = (.error err, s1) →
      Update conn receipt s = ((receipt, some (RepoError.db err)), s1) ∧
      (Update (recording conn) receipt (s, [])).2.2 = [ConnCall.Update receipt]) ∧
    (∀ n s1, conn.Update receipt s = (.ok n, s1) →
      Update conn receipt s =
        Find conn receipt.UserGUID receipt.ClientID receipt.KindID s1 ∧
      (Update (recording conn) receipt (s, [])).2.2 =
        [ConnCall.Update receipt,
         ConnCall.SelectOne
           "SELECT * FROM  `receipts` WHERE `user_guid` = ? AND `client_id` = ? AND `kind_id` = ?"
           [SQLArg.str receipt.UserGUID, SQLArg.str receipt.ClientID,
            SQLArg.str receipt.KindID]]) := by
  refine ⟨?_, ?_⟩
  · intro err s1 h
    rw [Update_eq, Update_eq, h]
    refine ⟨rfl, ?_⟩
    simp only [recording, h, List.nil_append]
  · intro n s1 h
    rw [Update_eq, Update_eq, h]
    refine ⟨rfl, ?_⟩
    simp only [recording, h]
    rw [Find_eq]
    simp only []
    cases conn.SelectOne
        "SELECT * FROM  `receipts` WHERE `user_guid` = ? AND `client_id` = ? AND `kind_id` = ?"
        [SQLArg.str receipt.UserGUID, SQLArg.str receipt.ClientID, SQLArg.str receipt.KindID]
        s1 with
    | mk r s2 =>
      cases r with
      | ok row => rfl
      | error e => cases e <;> rfl

/-- Witness of C24 on the receipts table: the caller sends count 9 with time 0 for a stored
key; the receipt returned is the row as stored after the write. -/
theorem Update_error_or_reread_witness :
    Update receiptsTable ⟨"user-1", "client", "kind", 9, 0⟩
        [⟨"user-1", "client", "kind", 3, 7⟩] =
      Find receiptsTable "user-1" "client" "kind" [⟨"user-1", "client", "kind", 9, 0⟩] :=
  ((Update_error_or_reread receiptsTable ⟨"user-1", "client", "kind", 9, 0⟩
    [⟨"user-1", "client", "kind", 3, 7⟩]).2 1 [⟨"user-1", "client", "kind", 9, 0⟩]
    rfl).1

/-! ## The templates repository -/

/-- `TemplatesRepo.Find` by the answer of `SelectOne`. -/
theorem templates_Find_eq {σ : Type} (conn : TemplatesConnection σ) (templateName : String)
    (s : σ) :
    TemplatesRepo.Find conn templateName s =
      match conn.SelectOne "SELECT * FROM `templates` WHERE `name`=?"
          [SQLArg.str templateName] s with
      | ((holder, some DbError.ErrNoRows), s1) => ((holder, some RepoError.ErrRecordNotFound), s1)
      | ((holder, some (DbError.driver e)), s1) =>
        ((holder, some (RepoError.db (DbError.driver e))), s1)
      | ((holder, none), s1) => ((holder, none), s1) := by
  unfold TemplatesRepo.Find
  cases conn.SelectOne "SELECT * FROM `templates` WHERE `name`=?" [SQLArg.str templateName] s with
  | mk r s1 =>
    cases r with
    | mk holder err =>
      cases err with
      | none => rfl
      | some e => cases e <;> simp

/-- The recording connection answers `Find` as the connection it wraps and logs the one
select. -/
theorem templates_Find_recording {σ : Type} (conn : TemplatesConnection σ)
    (templateName : String) (s : σ) (log : List TemplateCall) :
    TemplatesRepo.Find (recordingTemplates conn) templateName (s, log) =
      ((TemplatesRepo.Find conn templateName s).1,
        ((TemplatesRepo.Find conn templateName s).2,
          log ++ [TemplateCall.SelectOne "SELECT * FROM `templates` WHERE `name`=?"
            [SQLArg.str templateName]])) := by
  rw [templates_Find_eq, templates_Find_eq]
  simp only [recordingTemplates]
  cases conn.SelectOne "SELECT * FROM `templates` WHERE `name`=?" [SQLArg.str templateName] s with
  | mk r s1 =>
    cases r with
    | mk holder err =>
      cases err with
      | none => rfl
      | some e => cases e <;> rfl

/-- The value of `time.Now().Truncate(1 * time.Second).UTC()`: the reading of the clock
less its part below the second, in UTC. -/
theorem Now_Truncate_UTC (now : Nat) :
    ((Now now).Truncate (1 * Second)).UTC = ⟨(now - now % 1000000000 : Nat), none⟩ := by
  have h : ((now : Int) - (now : Int) % ((1 * Second : Nat) : Int)) =
      ((now - now % 1000000000 : Nat) : Int) := by
    simp only [Second]
    omega
  simp only [Now, Time.Truncate, Time.UTC, Second]
  rw [if_neg (by decide)]
  simp only [Time.mk.injEq, and_true]
  simpa [Second] using h

/-- The template `Create` hands to `Insert`. -/
theorem templates_Create_eq {σ : Type} (conn : TemplatesConnection σ) (now : Nat)
    (template : Template) (s : σ) :
    TemplatesRepo.Create conn now template s =
      match conn.Insert
          { template with
            CreatedAt := if template.CreatedAt = ({} : Time) then ((Now now).Truncate (1 * Second)).UTC
              else template.CreatedAt
            UpdatedAt := if template.CreatedAt = ({} : Time) then ((Now now).Truncate (1 * Second)).UTC
              else template.CreatedAt }
          s with
      | (.error err, s1) => ((⟨0, "", "", "", "", false, ⟨0, none⟩, ⟨0, none⟩⟩, some (RepoError.db err)), s1)
      | (.ok key, s1) =>
        (({ template with
            Primary := key
            CreatedAt := if template.CreatedAt = ({} : Time) then ((Now now).Truncate (1 * Second)).UTC
              else template.CreatedAt
            UpdatedAt := if template.CreatedAt = ({} : Time) then ((Now now).Truncate (1 * Second)).UTC
              else template.CreatedAt },
          none), s1) := by
  unfold TemplatesRepo.Create
  by_cases h0 : template.CreatedAt = ({} : Time)
  · simp only [h0, if_true]
  · simp only [h0, if_false]

/-- The recording connection answers `Create` as the connection it wraps and logs the one
insert. -/
theorem templates_Create_recording {σ : Type} (conn : TemplatesConnection σ) (now : Nat)
    (template : Template) (s : σ) (log : List TemplateCall) :
    TemplatesRepo.Create (recordingTemplates conn) now template (s, log) =
      ((TemplatesRepo.Create conn now template s).1,
        ((TemplatesRepo.Create conn now template s).2,
          log ++ [TemplateCall.Insert
            { template with
              CreatedAt := if template.CreatedAt = ({} : Time) then ((Now now).Truncate (1 * Second)).UTC
              else template.CreatedAt
              UpdatedAt :=
                if template.CreatedAt = ({} : Time) then ((Now now).Truncate (1 * Second)).UTC
              else template.CreatedAt }])) := by
  rw [templates_Create_eq, templates_Create_eq]
  simp only [recordingTemplates]
  cases conn.Insert _ s with
  | mk r s1 => cases r <;> rfl

/-- `Upsert` by the result of `Find`. -/
theorem templates_Upsert_eq {σ : Type} (conn : TemplatesConnection σ) (now : Nat)
    (template : Template) (s : σ) :
    TemplatesRepo.Upsert conn now template s =
      match TemplatesRepo.Find conn template.Name s with
      | ((_, some RepoError.ErrRecordNotFound), s1) => TemplatesRepo.Create conn now template s1
      | ((_, some err), s1) => ((⟨0, "", "", "", "", false, ⟨0, none⟩, ⟨0, none⟩⟩, some err), s1)
      | ((existing, none), s1) =>
        match conn.Update
            ⟨existing.Primary, template.Name, template.Subject, template.Text, template.HTML,
              template.Overridden, existing.CreatedAt, ((Now now).Truncate (1 * Second)).UTC⟩ s1 with
        | (.error err, s2) => ((⟨0, "", "", "", "", false, ⟨0, none⟩, ⟨0, none⟩⟩, some (RepoError.db err)), s2)
        | (.ok _, s2) =>
          ((⟨existing.Primary, template.Name, template.Subject, template.Text, template.HTML,
              template.Overridden, existing.CreatedAt, ((Now now).Truncate (1 * Second)).UTC⟩, none), s2) := by
  unfold TemplatesRepo.Upsert
  cases TemplatesRepo.Find conn template.Name s with
  | mk r s1 =>
    cases r with
    | mk holder err =>
      cases err with
      | none => rfl
      | some e => cases e <;> simp

/-- C25: when `Find` finds a template of the name, `Upsert` makes one `Update` after the
select and no `Insert`, and the template it writes, and returns when the write succeeds,
has the `Primary` and `CreatedAt` of the existing row, `UpdatedAt` the clock truncated to
the second, and every other field of the caller's template. -/
theorem Upsert_existing_updates {σ : Type} (conn : TemplatesConnection σ) (now : Nat)
    (template existing : Template) (s s1 : σ)
    (h : conn.SelectOne "SELECT * FROM `templates` WHERE `name`=?"
      [SQLArg.str template.Name] s = ((existing, none), s1)) :
    (TemplatesRepo.Upsert (recordingTemplates conn) now template (s, [])).2.2 =
        [TemplateCall.SelectOne "SELECT * FROM `templates` WHERE `name`=?"
            [SQLArg.str template.Name],
         TemplateCall.Update
            ⟨existing.Primary, template.Name, template.Subject, template.Text, template.HTML,
              template.Overridden, existing.CreatedAt,
              ⟨(now - now % 1000000000 : Nat), none⟩⟩] ∧
      insertIssued (TemplatesRepo.Upsert (recordingTemplates conn) now template (s, [])).2.2
        = false ∧
      (∀ n s2,
        conn.Update
            ⟨existing.Primary, template.Name, template.Subject, template.Text, template.HTML,
              template.Overridden, existing.CreatedAt,
              ⟨(now - now % 1000000000 : Nat), none⟩⟩ s1 = (.ok n, s2) →
        TemplatesRepo.Upsert conn now template s =
          ((⟨existing.Primary, template.Name, template.Subject, template.Text, template.HTML,
              template.Overridden, existing.CreatedAt,
              ⟨(now - now % 1000000000 : Nat), none⟩⟩, none), s2)) := by
  have ht := Now_Truncate_UTC now
  have hf : TemplatesRepo.Find conn template.Name s = ((existing, none), s1) := by
    rw [templates_Find_eq, h]
  have hlog : (TemplatesRepo.Upsert (recordingTemplates conn) now template (s, [])).2.2 =
      [TemplateCall.SelectOne "SELECT * FROM `templates` WHERE `name`=?"
          [SQLArg.str template.Name],
       TemplateCall.Update
          ⟨existing.Primary, template.Name, template.Subject, template.Text, template.HTML,
            template.Overridden, existing.CreatedAt,
              ⟨(now - now % 1000000000 : Nat), none⟩⟩] := by
    rw [templates_Upsert_eq, templates_Find_recording, hf, ht]
    simp only [recordingTemplates, List.nil_append]
    cases conn.Update _ s1 with
    | mk u s2 => cases u <;> rfl
  refine ⟨hlog, ?_, ?_⟩
  · rw [hlog]
    rfl
  · intro n s2 hu
    rw [templates_Upsert_eq, hf, ht]
    simp only [hu]

/-- Witness of C25: the stored row has key 4 and creation time 3000000000; the caller's
template names other values for both. -/
theorem Upsert_existing_updates_witness :
    TemplatesRepo.Upsert
        (scriptedTemplates (⟨4, "welcome", "old", "old text", "", false, ⟨3000000000, none⟩,
          ⟨3000000000, none⟩⟩,
          none) (.ok 9) (.ok 1) (.ok 1))
        7500000000 ⟨0, "welcome", "new", "new text", "<p>new</p>", true, ⟨5, none⟩, ⟨6, none⟩⟩ () =
      ((⟨4, "welcome", "new", "new text", "<p>new</p>", true, ⟨3000000000, none⟩,
          ⟨7000000000, none⟩⟩, none),
        ()) :=
  (Upsert_existing_updates
    (scriptedTemplates (⟨4, "welcome", "old", "old text", "", false, ⟨3000000000, none⟩,
          ⟨3000000000, none⟩⟩,
      none) (.ok 9) (.ok 1) (.ok 1))
    7500000000 ⟨0, "welcome", "new", "new text", "<p>new</p>", true, ⟨5, none⟩, ⟨6, none⟩⟩
    ⟨4, "welcome", "old", "old text", "", false, ⟨3000000000, none⟩,
          ⟨3000000000, none⟩⟩ () () rfl).2.2 1 () rfl

/-- C26: `Upsert` issues an `Insert` if and only if `Find` reports `ErrRecordNotFound`;
when the select finds no row, `Upsert` is `Create` run on the store the select left; when
the select fails with another error, `Upsert` makes no other call (no `Insert`, no
`Update`) and returns the zero template with that error. -/
theorem Upsert_inserts_iff_not_found {σ : Type} (conn : TemplatesConnection σ) (now : Nat)
    (template : Template) (s : σ) :
    (insertIssued (TemplatesRepo.Upsert (recordingTemplates conn) now template (s, [])).2.2
        = true ↔
      (TemplatesRepo.Find conn template.Name s).1.2 = some RepoError.ErrRecordNotFound) ∧
    (∀ holder s1,
      conn.SelectOne "SELECT * FROM `templates` WHERE `name`=?" [SQLArg.str template.Name] s
        = ((holder, some DbError.ErrNoRows), s1) →
      TemplatesRepo.Upsert conn now template s = TemplatesRepo.Create conn now template s1) ∧
    (∀ holder e s1,
      conn.SelectOne "SELECT * FROM `templates` WHERE `name`=?" [SQLArg.str template.Name] s
        = ((holder, some (DbError.driver e)), s1) →
      TemplatesRepo.Upsert conn now template s =
          ((⟨0, "", "", "", "", false, ⟨0, none⟩, ⟨0, none⟩⟩, some (RepoError.db (DbError.driver e))), s1) ∧
        (TemplatesRepo.Upsert (recordingTemplates conn) now template (s, [])).2.2 =
          [TemplateCall.SelectOne "SELECT * FROM `templates` WHERE `name`=?"
            [SQLArg.str template.Name]]) := by
  refine ⟨?_, ?_, ?_⟩
  · rw [templates_Upsert_eq, templates_Find_recording, templates_Find_eq]
    cases conn.SelectOne "SELECT * FROM `templates` WHERE `name`=?"
        [SQLArg.str template.Name] s with
    | mk r s1 =>
      cases r with
      | mk holder err =>
        cases err with
        | none =>
          simp only [recordingTemplates, List.nil_append]
          cases conn.Update _ s1 with
          | mk u s2 => cases u <;> simp [insertIssued]
        | some e =>
          cases e with
          | ErrNoRows =>
            simp only [templates_Create_recording, List.nil_append]
            simp [insertIssued]
          | driver m => simp [insertIssued]
  · intro holder s1 h
    rw [templates_Upsert_eq, templates_Find_eq, h]
  · intro holder e s1 h
    have hf : TemplatesRepo.Find conn template.Name s =
        ((holder, some (RepoError.db (DbError.driver e))), s1) := by
      rw [templates_Find_eq, h]
    refine ⟨?_, ?_⟩
    · rw [templates_Upsert_eq, hf]
    · rw [templates_Upsert_eq, templates_Find_recording, hf]
      rfl

/-- Witness of C26: the select finds no row, so `Upsert` is `Create`. -/
theorem Upsert_inserts_iff_not_found_witness :
    TemplatesRepo.Upsert
        (scriptedTemplates (⟨0, "", "", "", "", false, ⟨0, none⟩, ⟨0, none⟩⟩, some DbError.ErrNoRows)
          (.ok 9) (.ok 1) (.ok 1))
        7500000000 ⟨0, "welcome", "new", "new text", "<p>new</p>", true, ⟨0, none⟩, ⟨6, none⟩⟩ () =
      TemplatesRepo.Create
        (scriptedTemplates (⟨0, "", "", "", "", false, ⟨0, none⟩, ⟨0, none⟩⟩, some DbError.ErrNoRows)
          (.ok 9) (.ok 1) (.ok 1))
        7500000000 ⟨0, "welcome", "new", "new text", "<p>new</p>", true, ⟨0, none⟩, ⟨6, none⟩⟩ () :=
  (Upsert_inserts_iff_not_found
    (scriptedTemplates (⟨0, "", "", "", "", false, ⟨0, none⟩, ⟨0, none⟩⟩, some DbError.ErrNoRows)
      (.ok 9) (.ok 1) (.ok 1))
    7500000000 ⟨0, "welcome", "new", "new text", "<p>new</p>", true, ⟨0, none⟩, ⟨6, none⟩⟩ ()).2.1
    ⟨0, "", "", "", "", false, ⟨0, none⟩, ⟨0, none⟩⟩ () rfl

/-- C27: a successful `TemplatesRepo.Create` returns a template whose `UpdatedAt` equals its
`CreatedAt`; a `CreatedAt` of the caller that is not the zero value `time.Time{}` is kept
as it is, with its location (so also the zero instant in a location other than nil, and the
Unix epoch); the zero value is replaced by the reading of the clock truncated to the second,
in UTC; the other fields of the caller's template are kept, the primary key being the one
the insert bound. -/
theorem Create_template_timestamps {σ : Type} (conn : TemplatesConnection σ) (now : Nat)
    (template : Template) (s : σ)
    (h : (TemplatesRepo.Create conn now template s).1.2 = none) :
    (TemplatesRepo.Create conn now template s).1.1.UpdatedAt =
        (TemplatesRepo.Create conn now template s).1.1.CreatedAt ∧
      (template.CreatedAt ≠ ⟨0, none⟩ →
        (TemplatesRepo.Create conn now template s).1.1.CreatedAt = template.CreatedAt) ∧
      (template.CreatedAt = ⟨0, none⟩ →
        (TemplatesRepo.Create conn now template s).1.1.CreatedAt =
          ⟨(now - now % 1000000000 : Nat), none⟩) ∧
      (TemplatesRepo.Create conn now template s).1.1.Name = template.Name ∧
      (TemplatesRepo.Create conn now template s).1.1.Subject = template.Subject ∧
      (TemplatesRepo.Create conn now template s).1.1.Text = template.Text ∧
      (TemplatesRepo.Create conn now template s).1.1.HTML = template.HTML ∧
      (TemplatesRepo.Create conn now template s).1.1.Overridden = template.Overridden := by
  have ht := Now_Truncate_UTC now
  rw [templates_Create_eq] at h ⊢
  cases hI : conn.Insert
      { template with
        CreatedAt := if template.CreatedAt = ({} : Time) then ((Now now).Truncate (1 * Second)).UTC
              else template.CreatedAt
        UpdatedAt := if template.CreatedAt = ({} : Time) then ((Now now).Truncate (1 * Second)).UTC
              else template.CreatedAt }
      s with
  | mk r s1 =>
    rw [hI] at h
    cases r with
    | error err => simp at h
    | ok key =>
      refine ⟨rfl, ?_, ?_, rfl, rfl, rfl, rfl, rfl⟩
      · intro hne
        show (if template.CreatedAt = ({} : Time) then ((Now now).Truncate (1 * Second)).UTC
          else template.CreatedAt) = _
        rw [if_neg hne]
      · intro h0
        show (if template.CreatedAt = ({} : Time) then ((Now now).Truncate (1 * Second)).UTC
          else template.CreatedAt) = _
        rw [if_pos h0, ht]

/-- Witness of C27: a template whose creation time is the zero value is stamped with the
truncated clock in UTC; the zero instant in the location "Europe/Paris" and the Unix epoch
(62135596800 seconds after the zero instant) are kept. -/
theorem Create_template_timestamps_witness :
    (TemplatesRepo.Create
        (scriptedTemplates (⟨0, "", "", "", "", false, ⟨0, none⟩, ⟨0, none⟩⟩, none)
          (.ok 9) (.ok 1) (.ok 1))
        7500000000 ⟨0, "welcome", "new", "new text", "<p>new</p>", true, ⟨0, none⟩, ⟨6, none⟩⟩
        ()).1.1.CreatedAt = ⟨7000000000, none⟩ ∧
    (TemplatesRepo.Create
        (scriptedTemplates (⟨0, "", "", "", "", false, ⟨0, none⟩, ⟨0, none⟩⟩, none)
          (.ok 9) (.ok 1) (.ok 1))
        7500000000
        ⟨0, "welcome", "new", "new text", "<p>new</p>", true, ⟨0, some "Europe/Paris"⟩,
          ⟨6, none⟩⟩
        ()).1.1.CreatedAt = ⟨0, some "Europe/Paris"⟩ ∧
    (TemplatesRepo.Create
        (scriptedTemplates (⟨0, "", "", "", "", false, ⟨0, none⟩, ⟨0, none⟩⟩, none)
          (.ok 9) (.ok 1) (.ok 1))
        7500000000
        ⟨0, "welcome", "new", "new text", "<p>new</p>", true, ⟨62135596800000000000, none⟩,
          ⟨6, none⟩⟩
        ()).1.1.CreatedAt = ⟨62135596800000000000, none⟩ :=
  ⟨((Create_template_timestamps
      (scriptedTemplates (⟨0, "", "", "", "", false, ⟨0, none⟩, ⟨0, none⟩⟩, none)
        (.ok 9) (.ok 1) (.ok 1))
      7500000000 ⟨0, "welcome", "new", "new text", "<p>new</p>", true, ⟨0, none⟩, ⟨6, none⟩⟩
      () rfl).2.2.1 rfl).trans (by decide),
    (Create_template_timestamps
      (scriptedTemplates (⟨0, "", "", "", "", false, ⟨0, none⟩, ⟨0, none⟩⟩, none)
        (.ok 9) (.ok 1) (.ok 1))
      7500000000
      ⟨0, "welcome", "new", "new text", "<p>new</p>", true, ⟨0, some "Europe/Paris"⟩,
        ⟨6, none⟩⟩
      () rfl).2.1 (by decide),
    (Create_template_timestamps
      (scriptedTemplates (⟨0, "", "", "", "", false, ⟨0, none⟩, ⟨0, none⟩⟩, none)
        (.ok 9) (.ok 1) (.ok 1))
      7500000000
      ⟨0, "welcome", "new", "new text", "<p>new</p>", true, ⟨62135596800000000000, none⟩,
        ⟨6, none⟩⟩
      () rfl).2.1 (by decide)⟩

/-- `Destroy` by the result of `Find`. -/
theorem templates_Destroy_eq {σ : Type} (conn : TemplatesConnection σ)
    (templateName : String) (s : σ) :
    TemplatesRepo.Destroy conn templateName s =
      match TemplatesRepo.Find conn templateName s with
      | ((_, some RepoError.ErrRecordNotFound), s1) => (none, s1)
      | ((_, some err), s1) => (some err, s1)
      | ((found, none), s1) =>
        match conn.Delete found s1 with
        | (.error err, s2) => (some (RepoError.db err), s2)
        | (.ok _, s2) => (none, s2) := by
  unfold TemplatesRepo.Destroy
  cases TemplatesRepo.Find conn templateName s with
  | mk r s1 =>
    cases r with
    | mk holder err =>
      cases err with
      | none => rfl
      | some e => cases e <;> simp

/-- C28: `Destroy` of a name for which the select finds no row returns nil and makes no
other call on the connection, so no `Delete`; when the select fails with another error,
`Destroy` returns that error and makes no other call either; a found template is deleted
with one `Delete`. -/
theorem Destroy_not_found_or_error {σ : Type} (conn : TemplatesConnection σ)
    (templateName : String) (s : σ) :
    (∀ holder s1,
      conn.SelectOne "SELECT * FROM `templates` WHERE `name`=?" [SQLArg.str templateName] s
        = ((holder, some DbError.ErrNoRows), s1) →
      TemplatesRepo.Destroy conn templateName s = (none, s1) ∧
        (TemplatesRepo.Destroy (recordingTemplates conn) templateName (s, [])).2.2 =
          [TemplateCall.SelectOne "SELECT * FROM `templates` WHERE `name`=?"
            [SQLArg.str templateName]]) ∧
    (∀ holder e s1,
      conn.SelectOne "SELECT * FROM `templates` WHERE `name`=?" [SQLArg.str templateName] s
        = ((holder, some (DbError.driver e)), s1) →
      TemplatesRepo.Destroy conn templateName s = (some (RepoError.db (DbError.driver e)), s1) ∧
        (TemplatesRepo.Destroy (recordingTemplates conn) templateName (s, [])).2.2 =
          [TemplateCall.SelectOne "SELECT * FROM `templates` WHERE `name`=?"
            [SQLArg.str templateName]]) ∧
    (∀ found s1,
      conn.SelectOne "SELECT * FROM `templates` WHERE `name`=?" [SQLArg.str templateName] s
        = ((found, none), s1) →
      (TemplatesRepo.Destroy (recordingTemplates conn) templateName (s, [])).2.2 =
        [TemplateCall.SelectOne "SELECT * FROM `templates` WHERE `name`=?"
            [SQLArg.str templateName],
         TemplateCall.Delete found]) := by
  refine ⟨?_, ?_, ?_⟩
  · intro holder s1 h
    have hf : TemplatesRepo.Find conn templateName s =
        ((holder, some RepoError.ErrRecordNotFound), s1) := by
      rw [templates_Find_eq, h]
    refine ⟨?_, ?_⟩
    · rw [templates_Destroy_eq, hf]
    · rw [templates_Destroy_eq, templates_Find_recording, hf]
      rfl
  · intro holder e s1 h
    have hf : TemplatesRepo.Find conn templateName s =
        ((holder, some (RepoError.db (DbError.driver e))), s1) := by
      rw [templates_Find_eq, h]
    refine ⟨?_, ?_⟩
    · rw [templates_Destroy_eq, hf]
    · rw [templates_Destroy_eq, templates_Find_recording, hf]
      rfl
  · intro found s1 h
    have hf : TemplatesRepo.Find conn templateName s = ((found, none), s1) := by
      rw [templates_Find_eq, h]
    rw [templates_Destroy_eq, templates_Find_recording, hf]
    simp only [recordingTemplates, List.nil_append]
    cases conn.Delete found s1 with
    | mk d s2 => cases d <;> rfl

/-- Witness of C28: the select finds no row; `Destroy` returns nil, and again when it is
called a second time. -/
theorem Destroy_not_found_or_error_witness :
    TemplatesRepo.Destroy
        (scriptedTemplates (⟨0, "", "", "", "", false, ⟨0, none⟩, ⟨0, none⟩⟩, some DbError.ErrNoRows)
          (.ok 9) (.ok 1) (.ok 1)) "welcome" () = (none, ()) ∧
      deleteIssued
        (TemplatesRepo.Destroy
          (recordingTemplates
            (scriptedTemplates (⟨0, "", "", "", "", false, ⟨0, none⟩, ⟨0, none⟩⟩, some DbError.ErrNoRows)
              (.ok 9) (.ok 1) (.ok 1))) "welcome" ((), [])).2.2 = false :=
  ⟨((Destroy_not_found_or_error
      (scriptedTemplates (⟨0, "", "", "", "", false, ⟨0, none⟩, ⟨0, none⟩⟩, some DbError.ErrNoRows)
        (.ok 9) (.ok 1) (.ok 1)) "welcome" ()).1 ⟨0, "", "", "", "", false, ⟨0, none⟩, ⟨0, none⟩⟩ () rfl).1,
    by
      rw [((Destroy_not_found_or_error
        (scriptedTemplates (⟨0, "", "", "", "", false, ⟨0, none⟩, ⟨0, none⟩⟩, some DbError.ErrNoRows)
          (.ok 9) (.ok 1) (.ok 1)) "welcome" ()).1 ⟨0, "", "", "", "", false, ⟨0, none⟩, ⟨0, none⟩⟩ () rfl).2]
      rfl⟩

end models

namespace handlers

/-! ## The web handlers -/

/-- C29: when `notify.Execute` fails, `NotifyEmail.Execute` returns its error unchanged and
makes no call on the response writer (no status, no body); when it succeeds,
`NotifyEmail.Execute` writes the status 200 and then exactly the bytes returned, and returns
nil. -/
theorem NotifyEmail_Execute_writes {ε : Type} (output : List Nat) (w : List WriterCall) :
    (∀ err : ε, NotifyEmail.Execute (output, some err) w = (w, some err)) ∧
      NotifyEmail.Execute (output, (none : Option ε)) w =
        (w ++ [WriterCall.WriteHeader 200, WriterCall.Write output], none) :=
  ⟨fun _ => rfl, rfl⟩

/-- The characters of a literal followed by a string. -/
theorem data_append (a b : String) : (a ++ b).data = a.data ++ b.data :=
  String.data_append a b

/-- C30: `parseGUID` of "/user_preferences/" followed by any string `g` is `g`, and
`parseGUID` of a path that does not start with "/user_preferences/" is the path itself. -/
theorem parseGUID_trims_leading_path :
    (∀ g : String, parseGUID ("/user_preferences/" ++ g) = g) ∧
      (∀ path : String, HasPrefix path "/user_preferences/" = false → parseGUID path = path) := by
  refine ⟨?_, ?_⟩
  · intro g
    have hp : HasPrefix ("/user_preferences/" ++ g) "/user_preferences/" = true := by
      unfold HasPrefix
      rw [data_append, List.isPrefixOf_iff_prefix]
      exact List.prefix_append _ _
    unfold parseGUID TrimPrefix
    rw [if_pos hp]
    apply String.ext
    rw [data_append]
    exact List.drop_left _ _
  · intro path h
    unfold parseGUID TrimPrefix
    rw [if_neg (by simp [h])]

/-- Witness of C30: a path with the prefix, and one without. -/
theorem parseGUID_trims_leading_path_witness :
    parseGUID ("/user_preferences/" ++ "user-guid-123") = "user-guid-123" ∧
      parseGUID "/preferences/user-guid-123" = "/preferences/user-guid-123" :=
  ⟨parseGUID_trims_leading_path.1 "user-guid-123",
    parseGUID_trims_leading_path.2 "/preferences/user-guid-123" (by decide)⟩

end handlers

namespace unsubscribers

/-! ## The unsubscribe filter -/

/-- C21: `IsSuppressed` returns true if and only if an unsubscribe record exists for the
pair and the campaign type is not critical; for a critical campaign type it returns false
whatever the unsubscribe records, without consulting them. -/
theorem IsSuppressed_iff (store : Store) (campaignTypeID userGUID : String) :
    ((IsSuppressed store campaignTypeID userGUID).1 = true ↔
      (⟨campaignTypeID, userGUID⟩ ∈ store.unsubscribers ∧
        store.critical campaignTypeID = false)) ∧
    (store.critical campaignTypeID = true →
      (IsSuppressed store campaignTypeID userGUID).1 = false ∧
        consultedUnsubscribers (IsSuppressed store campaignTypeID userGUID).2 = false) := by
  unfold IsSuppressed
  cases hc : store.critical campaignTypeID with
  | true => simp [consultedUnsubscribers]
  | false => simp

/-- Witness of C21 on the scenario of the acceptance test: the user unsubscribed from a
critical campaign type, and delivery is not suppressed. -/
theorem IsSuppressed_iff_witness :
    (IsSuppressed ⟨fun id => id == "critical-type", [⟨"critical-type", "user-123"⟩]⟩
        "critical-type" "user-123").1 = false ∧
      consultedUnsubscribers
        (IsSuppressed ⟨fun id => id == "critical-type", [⟨"critical-type", "user-123"⟩]⟩
          "critical-type" "user-123").2 = false :=
  (IsSuppressed_iff ⟨fun id => id == "critical-type", [⟨"critical-type", "user-123"⟩]⟩
    "critical-type" "user-123").2 (by decide)

/-- The scenario of the acceptance test "delivers or not based on the unsubscribe state":
an unsubscribed user of a campaign type that is not critical is suppressed, another user is
not. -/
theorem IsSuppressed_unsubscribed :
    (IsSuppressed ⟨fun id => id == "critical-type", [⟨"some-type", "user-123"⟩]⟩
        "some-type" "user-123").1 = true ∧
      (IsSuppressed ⟨fun id => id == "critical-type", [⟨"some-type", "user-123"⟩]⟩
        "some-type" "user-456").1 = false := by
  decide

end unsubscribers
